import Mathlib

/-!
Verification development for the Mohaeng-AI conversational itinerary
modification pipeline.  The definitions below are a shallow embedding of

* `app/core/visit_time_policy.py` (schedule cascade engine),
* `app/core/geo.py` (`GeoRectangle.contains`),
* `app/graph/chat/nodes/mutate.py` and `app/graph/modify/nodes/mutate.py`
  (the two mutation-engine variants),
* `app/graph/modify/utils.py` (`reorder_visit_sequence`, `build_diff_key`;
  `app/graph/chat/utils.py` is imported by the chat mutate node but is not in
  the source tree — the modify versions carry the same names and the spec fixes
  the identical diff-key format, so one embedding serves both flows),
* `app/graph/chat/workflow.py` (`_route_after_mutate`).

Machine reals (Python floats) are modelled as rationals; the transcendental
haversine distance `_haversine_distance_km` is passed in as a function
argument wherever the source calls it, so every theorem quantifies over it.
-/

namespace Mohaeng

/-- Python `int(x)` applied to a non-integral number truncates toward zero.
For a rational in lowest terms this is `num.tdiv den`. -/
def pyInt (q : ℚ) : ℤ :=
  q.num.tdiv q.den

/-- Rounding to the nearest integer (half away from zero is irrelevant for the
uses below; ties are rounded up).  This is the reading of the spec sentence
"transit_minutes = round(...)"; the source code uses `int(...)` instead. -/
def roundNearest (q : ℚ) : ℤ :=
  (q + 1/2).num.fdiv (q + 1/2).den

/-- Python `list.insert(i, x)`: a negative index counts from the end and both
directions clamp into the list. -/
def pyInsert {α : Type} (i : ℤ) (a : α) (l : List α) : List α :=
  let j : ℤ := if i < 0 then max 0 ((l.length : ℤ) + i) else min i (l.length : ℤ)
  List.insertIdx j.toNat a l

/-- Python `str.strip()` on a character list. -/
def charsStrip (cs : List Char) : List Char :=
  ((cs.dropWhile Char.isWhitespace).reverse.dropWhile Char.isWhitespace).reverse

/-- Python `str.upper()` on a character list (the strings parsed here are
ASCII time strings, where `Char.toUpper` agrees with Python). -/
def charsUpper (cs : List Char) : List Char :=
  cs.map Char.toUpper

/-- Does the list start with the given pattern? -/
def charsStarts : List Char → List Char → Bool
  | [], _ => true
  | _ :: _, [] => false
  | p :: ps, c :: cs => p == c && charsStarts ps cs

/-- Python `pat in s` substring containment. -/
def charsHasSub (pat : List Char) : List Char → Bool
  | [] => pat.isEmpty
  | c :: cs => charsStarts pat (c :: cs) || charsHasSub pat cs

/-- Python `s.replace(pat, rep)`, fuel-recursive so that it reduces in the
kernel; the fuel is the input length and every step consumes at least one
character, so it never runs out. -/
def charsReplaceGo (pat rep : List Char) : ℕ → List Char → List Char
  | 0, l => l
  | _ + 1, [] => []
  | fuel + 1, c :: cs =>
    if charsStarts pat (c :: cs) && !pat.isEmpty then
      rep ++ charsReplaceGo pat rep fuel ((c :: cs).drop pat.length)
    else
      c :: charsReplaceGo pat rep fuel cs

/-- Python `s.replace(pat, rep)`: replace non-overlapping occurrences left to
right. -/
def charsReplace (pat rep l : List Char) : List Char :=
  charsReplaceGo pat rep l.length l

/-- Python `s.rstrip(chars)`: drop trailing characters satisfying the
predicate. -/
def charsDropTrail (p : Char → Bool) (cs : List Char) : List Char :=
  (cs.reverse.dropWhile p).reverse

/-- Python `s.split(sep)` for a single-character separator; `"".split(":")`
gives `[""]` and a trailing separator yields a trailing empty group. -/
def charsSplitCh (sep : Char) : List Char → List (List Char)
  | [] => [[]]
  | c :: cs =>
    if c == sep then [] :: charsSplitCh sep cs
    else
      match charsSplitCh sep cs with
      | [] => [[c]]
      | g :: gs => (c :: g) :: gs

/-- Decimal value of a non-empty all-digit list (`none` otherwise). -/
def digitsVal (cs : List Char) : Option ℕ :=
  if cs.isEmpty then none
  else
    cs.foldl
      (fun acc c =>
        match acc with
        | none => none
        | some a => if c.isDigit then some (a * 10 + (c.toNat - '0'.toNat)) else none)
      (some 0)

/-- Python `int(s)` on a string: optional surrounding whitespace, optional
sign, then decimal digits; anything else raises, modelled as `none`.
(Digit-group underscores and non-ASCII digits, which Python also accepts, do
not occur in time strings and are not modelled.) -/
def pyParseInt (cs : List Char) : Option ℤ :=
  let t := charsStrip cs
  match t with
  | '+' :: rest => (digitsVal rest).map (fun n => (n : ℤ))
  | '-' :: rest => (digitsVal rest).map (fun n => -(n : ℤ))
  | _ => (digitsVal t).map (fun n => (n : ℤ))

/-- `parse_time_to_hhmm_minutes` from `app/core/visit_time_policy.py`:
parse `H:MM` / `HH:MM` with optional `AM`/`PM` into minutes since midnight,
rejecting out-of-range values by returning `none`. -/
def parse_time_to_hhmm_minutes (value : Option String) : Option ℤ :=
  match value with
  | none => none
  | some v =>
    if v.data.isEmpty then none
    else
      let text := charsUpper (charsStrip v.data)
      if text.isEmpty then none
      else
        let is_pm := charsHasSub "PM".data text
        let is_am := charsHasSub "AM".data text
        let cleaned :=
          charsDropTrail (fun c => c == ':')
            (charsStrip (charsReplace "PM".data [] (charsReplace "AM".data [] text)))
        match charsSplitCh ':' cleaned with
        | [] => none
        | p0 :: rest =>
          match pyParseInt p0 with
          | none => none
          | some h0 =>
            let minute? : Option ℤ :=
              match rest with
              | [] => some 0
              | p1 :: _ => pyParseInt p1
            match minute? with
            | none => none
            | some minute =>
              let hour : ℤ :=
                if is_pm ∧ h0 ≠ 12 then h0 + 12
                else if is_am ∧ h0 = 12 then 0
                else h0
              if 0 ≤ hour ∧ hour < 24 ∧ 0 ≤ minute ∧ minute < 60 then
                some (hour * 60 + minute)
              else none

/-- Zero-padded two-digit rendering of a non-negative integer (Python
`f"{n:02d}"`). -/
def pad2 (n : ℤ) : String :=
  if n < 10 then "0" ++ toString n else toString n

/-- `format_minutes_to_hhmm`: clamp at zero, wrap the hour modulo 24. -/
def format_minutes_to_hhmm (total_minutes : ℤ) : String :=
  let normalized := max 0 total_minutes
  let hour := (normalized / 60) % 24
  let minute := normalized % 60
  pad2 hour ++ ":" ++ pad2 minute

/-- `format_minutes_to_section_en`: coarse section label from the hour
bucket. -/
def format_minutes_to_section_en (total_minutes : ℤ) : String :=
  let hour := (max 0 total_minutes / 60) % 24
  if hour < 11 then "MORNING"
  else if hour < 14 then "LUNCH"
  else if hour < 18 then "AFTERNOON"
  else if hour < 20 then "DINNER"
  else if hour < 22 then "EVENING"
  else "NIGHT"

/-- `_SECTION_TIME_MAP` from `app/core/visit_time_policy.py`. -/
def sectionTimeMap (key : String) : Option String :=
  if key = "MORNING" then some "09:00"
  else if key = "LUNCH" then some "12:00"
  else if key = "AFTERNOON" then some "14:00"
  else if key = "DINNER" then some "18:00"
  else if key = "EVENING" then some "20:00"
  else if key = "NIGHT" then some "22:00"
  else none

/-- `_section_minutes`: normalize the label, then look it up and parse the
mapped clock time. -/
def _section_minutes (value : Option String) : Option ℤ :=
  let key := (charsUpper (charsStrip ((value.getD "").data))).asString
  match sectionTimeMap key with
  | some t => parse_time_to_hhmm_minutes (some t)
  | none => none

/-- `_ceil_minutes_to_step`: round up to the next multiple of the step,
after clamping the value at zero and the step at one. -/
def _ceil_minutes_to_step (total_minutes : ℤ) (step_minutes : ℤ) : ℤ :=
  let normalized := max 0 total_minutes
  let step := max 1 step_minutes
  let remainder := normalized % step
  if remainder = 0 then normalized else normalized + (step - remainder)

/-- `_VISIT_TIME_MINUTE_STEP` (the default step argument). -/
def _VISIT_TIME_MINUTE_STEP : ℤ := 30

/-- `calc_transit_minutes` from `app/core/visit_time_policy.py`.  The
great-circle distance `_haversine_distance_km(lat1, lon1, lat2, lon2)` is
transcendental, so its value in kilometers is received as the already-computed
`distance_km` argument; the conversion `int(...)` truncates toward zero. -/
def calc_transit_minutes (distance_km : ℚ) (transit_factor : ℚ)
    (transit_base_minutes : ℤ) : ℤ :=
  pyInt (distance_km * transit_factor + transit_base_minutes)

/-- The spec's reading of the same computation, with `round` (nearest)
instead of the source's `int` (truncation): used only to compare the spec
sentence against the code. -/
def calc_transit_minutes_spec (distance_km : ℚ) (transit_factor : ℚ)
    (transit_base_minutes : ℤ) : ℤ :=
  roundNearest (distance_km * transit_factor + transit_base_minutes)

/-- One place entry of a day, as the `CoursePlace`-shaped dict handled by the
mutation and cascade code (`app/schemas/course.py` plus the transient
`section` / `section_hint` keys the cascade pops).  An `Option` field models
a key that is absent or holds `None`; `visit_sequence` is `none` when the raw
dict value would not convert with `int(...)`. -/
structure CoursePlace where
  place_name : String
  place_id : Option String
  address : Option String
  latitude : Option ℚ
  longitude : Option ℚ
  place_url : Option String
  description : Option String
  visit_sequence : Option ℤ
  visit_time : Option String
  sectionKey : Option String
  section_hint : Option String
deriving Repr, DecidableEq

/-- `VisitTimeOutputMode` from `app/core/visit_time_policy.py`. -/
inductive VisitTimeOutputMode
  | HHMM
  | SECTION_EN
deriving Repr, DecidableEq

/-- `VisitTimePolicyConfig` from `app/core/visit_time_policy.py`. -/
structure VisitTimePolicyConfig where
  start_minutes : ℤ
  stay_minutes : ℤ
  transit_factor : ℚ
  transit_base_minutes : ℤ
  late_hour : ℤ
  walk_warning_minutes : ℤ
deriving Repr, DecidableEq

/-- The type of the haversine distance function `_haversine_distance_km`:
latitude/longitude of two points to kilometers. -/
def DistKmFn : Type := ℚ → ℚ → ℚ → ℚ → ℚ

/-- The `day_prefix` string of `apply_visit_time_policy`. -/
def dayLabelOf (day_number : Option ℤ) : String :=
  match day_number with
  | some n => toString n ++ "일차"
  | none => "해당 일차"

/-- `_format_visit_time`. -/
def _format_visit_time (total_minutes : ℤ) (output_mode : VisitTimeOutputMode) : String :=
  match output_mode with
  | .SECTION_EN => format_minutes_to_section_en total_minutes
  | .HHMM => format_minutes_to_hhmm total_minutes

/-- `_resolve_anchor_minutes`: LLM proposal first, then the place's own
`visit_time` as a clock string, then as a section label, then the
`section` / `section_hint` keys. -/
def _resolve_anchor_minutes (place : CoursePlace) (llm_minutes : Option ℤ) : Option ℤ :=
  match llm_minutes with
  | some m => some m
  | none =>
    let visit_time_value : String := place.visit_time.getD ""
    match parse_time_to_hhmm_minutes (some visit_time_value) with
    | some parsed => some parsed
    | none =>
      match _section_minutes (some visit_time_value) with
      | some s => some s
      | none =>
        let hint : String :=
          match place.sectionKey with
          | some s => if s = "" then place.section_hint.getD "" else s
          | none => place.section_hint.getD ""
        _section_minutes (some hint)

/-- The walk-time warning string of `apply_visit_time_policy`. -/
def walkWarning (dayLabel : String) (prev_place place : CoursePlace) (transit : ℤ) : String :=
  dayLabel ++ " " ++ prev_place.place_name ++ " → " ++ place.place_name ++
    " 이동 시간이 약 " ++ toString transit ++ "분 소요됩니다. 이동 수단을 변경하시겠어요?"

/-- The midnight-overage warning string of `apply_visit_time_policy`. -/
def overageWarning (dayLabel : String) : String :=
  dayLabel ++ " 일정이 자정을 초과합니다."

/-- The late-arrival warning string of `apply_visit_time_policy`. -/
def lateWarning (dayLabel : String) (place : CoursePlace) (assigned : ℤ) : String :=
  dayLabel ++ " " ++ place.place_name ++ " 방문 시각이 " ++ toString (assigned / 60) ++ "시입니다."

/-- The overflow sentinel written by `apply_visit_time_policy` when a day
passes midnight ("schedule exceeded"), together with the `section` /
`section_hint` key removal the source performs on the same places. -/
def markExceeded (place : CoursePlace) : CoursePlace :=
  { place with visit_time := some "일정 초과", sectionKey := none, section_hint := none }

/-- The transit time between two consecutive places in the loop of
`apply_visit_time_policy`: `calc_transit_minutes` over the haversine distance
when all four coordinates are present, zero otherwise. -/
def transitBetween (dist : DistKmFn) (cfg : VisitTimePolicyConfig)
    (prev_place place : CoursePlace) : ℤ :=
  match prev_place.latitude, prev_place.longitude, place.latitude, place.longitude with
  | some lat1, some lon1, some lat2, some lon2 =>
    calc_transit_minutes (dist lat1 lon1 lat2 lon2) cfg.transit_factor cfg.transit_base_minutes
  | _, _, _, _ => 0

/-- The LLM-proposal lookup of the loop: `proposals.get(sequence, "")` parsed
when non-empty, where `sequence` is the place's `visit_sequence` or the
zero-based loop index plus one when that raw value does not convert. -/
def proposalMinutesFor (proposals : ℤ → Option String) (place : CoursePlace)
    (index : ℕ) : Option ℤ :=
  let sequence : ℤ := place.visit_sequence.getD ((index : ℤ) + 1)
  let proposal_text : String := (proposals sequence).getD ""
  if proposal_text = "" then none else parse_time_to_hhmm_minutes (some proposal_text)

/-- `assigned_time = max(base_time, anchor_time) if anchor_time is not None
else base_time`. -/
def applyAnchor (base_time : ℤ) (anchor_time : Option ℤ) : ℤ :=
  match anchor_time with
  | some a => max base_time a
  | none => base_time

/-- The walk-time warning list of one loop iteration: a singleton when all
four coordinates are present and the transit time exceeds the walk-warning
threshold, empty otherwise (in particular for the first place). -/
def transitWarnsFor (dist : DistKmFn) (cfg : VisitTimePolicyConfig) (dayLabel : String)
    (prev : Option (CoursePlace × ℤ)) (place : CoursePlace) : List String :=
  match prev with
  | none => []
  | some (prev_place, _) =>
    if prev_place.latitude.isSome ∧ prev_place.longitude.isSome ∧
        place.latitude.isSome ∧ place.longitude.isSome ∧
        cfg.walk_warning_minutes < transitBetween dist cfg prev_place place then
      [walkWarning dayLabel prev_place place (transitBetween dist cfg prev_place place)]
    else []

/-- The late-arrival warning list of one loop iteration. -/
def lateWarnsFor (cfg : VisitTimePolicyConfig) (dayLabel : String) (place : CoursePlace)
    (assigned_time : ℤ) : List String :=
  if cfg.late_hour ≤ assigned_time / 60 then [lateWarning dayLabel place assigned_time]
  else []

/-- The ceiling-rounded assigned time the loop computes for one place:
base time (start-of-day for the first place, previous assigned + stay +
transit afterwards), lifted by the anchor, rounded up to the 30-minute
step. -/
def stepAssignedTime (dist : DistKmFn) (cfg : VisitTimePolicyConfig)
    (proposals : ℤ → Option String) (prev : Option (CoursePlace × ℤ))
    (place : CoursePlace) (index : ℕ) : ℤ :=
  let base_time : ℤ :=
    match prev with
    | none => cfg.start_minutes
    | some (prev_place, prev_assigned) =>
      prev_assigned + cfg.stay_minutes + transitBetween dist cfg prev_place place
  _ceil_minutes_to_step
    (applyAnchor base_time
      (_resolve_anchor_minutes place (proposalMinutesFor proposals place index)))
    _VISIT_TIME_MINUTE_STEP

/-- The loop body of `apply_visit_time_policy`, one recursive step per place.
`prev` carries the previous place together with its assigned minutes (the
source's `places[index - 1]` and `assigned_minutes[-1]`); the result extends
the source's `(places, warnings)` pair with the internal `assigned_minutes`
trace, which `apply_visit_time_policy` projects away. -/
def visitTimeLoop (dist : DistKmFn) (cfg : VisitTimePolicyConfig) (dayLabel : String)
    (proposals : ℤ → Option String) (mode : VisitTimeOutputMode) :
    List CoursePlace → Option (CoursePlace × ℤ) → ℕ →
      List CoursePlace × List String × List ℤ
  | [], _, _ => ([], [], [])
  | place :: rest, prev, index =>
    let transitWarns : List String := transitWarnsFor dist cfg dayLabel prev place
    let assigned_time : ℤ := stepAssignedTime dist cfg proposals prev place index
    if 1440 ≤ assigned_time then
      ((place :: rest).map markExceeded, transitWarns ++ [overageWarning dayLabel], [])
    else
      let place' : CoursePlace :=
        { place with visit_time := some (_format_visit_time assigned_time mode),
                     sectionKey := none, section_hint := none }
      let lateWarns : List String := lateWarnsFor cfg dayLabel place assigned_time
      let restOut :=
        visitTimeLoop dist cfg dayLabel proposals mode rest (some (place, assigned_time))
          (index + 1)
      (place' :: restOut.1, transitWarns ++ lateWarns ++ restOut.2.1,
        assigned_time :: restOut.2.2)

/-- `apply_visit_time_policy` from `app/core/visit_time_policy.py`
(`_normalize_output_mode` is the identity on the already-typed mode, and the
config is the caller's resolved config).  Returns the updated place list and
the warnings, as the source does. -/
def apply_visit_time_policy (dist : DistKmFn) (places : List CoursePlace)
    (day_number : Option ℤ) (config : VisitTimePolicyConfig)
    (proposals : ℤ → Option String) (output_mode : VisitTimeOutputMode) :
    List CoursePlace × List String :=
  if places.isEmpty then (places, [])
  else
    let r := visitTimeLoop dist config (dayLabelOf day_number) proposals output_mode places none 0
    (r.1, r.2.1)

/-- `GeoRectangle` from `app/core/geo.py`: the four corner coordinates.  Only
`contains` is needed here; the clamping/epsilon normalization of
`__post_init__` and the point-cloud constructor (which divides by a cosine)
happen before any rectangle reaches the search code, so theorems quantify
over arbitrary rectangles. -/
structure GeoRectangle where
  min_lat : ℚ
  min_lng : ℚ
  max_lat : ℚ
  max_lng : ℚ
deriving Repr, DecidableEq

/-- `GeoRectangle.contains`: boundary-inclusive membership. -/
def GeoRectangle.contains (r : GeoRectangle) (latitude longitude : ℚ) : Bool :=
  decide (r.min_lat ≤ latitude ∧ latitude ≤ r.max_lat ∧
    r.min_lng ≤ longitude ∧ longitude ≤ r.max_lng)

/-- `PlaceGeometry` from `app/schemas/place.py`. -/
structure PlaceGeometry where
  latitude : ℚ
  longitude : ℚ
deriving Repr, DecidableEq

/-- `Place` from `app/schemas/place.py`: one Google Places search result. -/
structure Place where
  place_id : String
  name : String
  address : Option String
  geometry : PlaceGeometry
  url : Option String
  types : List String
deriving Repr, DecidableEq

/-- `_hard_filter_by_bbox` from `app/graph/chat/nodes/mutate.py` (the
`max(0, ...)` of the source is the truncated subtraction of `ℕ`). -/
def _hard_filter_by_bbox (results : List Place) (bbox : GeoRectangle) :
    List Place × ℕ :=
  let filtered :=
    results.filter (fun p => bbox.contains p.geometry.latitude p.geometry.longitude)
  (filtered, results.length - filtered.length)

/-- The candidate-list selection of `_search_place` in
`app/graph/chat/nodes/mutate.py`.  The three network results are parameters:
`search_restricted` is `service.search(keyword, min_rating=..,
location_restriction=day_bbox)`, `search_unrestricted` is the retry with
`location_restriction=None` (the rating filter kept), and
`search_unfiltered` is the retry with `min_rating=None` and no geographic
argument.  Only the first stage's results are hard-filtered by the day
rectangle; each later stage runs only when the previous one ended empty. -/
def searchPlaceCandidates (day_bbox : Option GeoRectangle)
    (search_restricted search_unrestricted search_unfiltered : List Place) :
    List Place :=
  let results := search_restricted
  let results :=
    match day_bbox with
    | some bbox => if results.isEmpty then results else (_hard_filter_by_bbox results bbox).1
    | none => results
  let results := if results.isEmpty ∧ day_bbox.isSome then search_unrestricted else results
  let results := if results.isEmpty then search_unfiltered else results
  results

/-- `_reorder_results_by_place_id` from `app/graph/chat/nodes/mutate.py`. -/
def _reorder_results_by_place_id (results : List Place) (selected_place_id : String) :
    List Place :=
  match results.findIdx? (fun p => p.place_id == selected_place_id) with
  | none => results
  | some 0 => results
  | some i =>
    match results.get? i with
    | none => results
    | some sel => sel :: (results.take i ++ results.drop (i + 1))

/-- Modelled from the spec: `app/schemas/enums.py` is not under `src/`.  The
spec fixes the operation tag set {REPLACE, ADD, REMOVE, MOVE}, shared by
`ChatOperation` and `ModifyOperation`. -/
inductive ChatOperation
  | REPLACE
  | ADD
  | REMOVE
  | MOVE
deriving Repr, DecidableEq

/-- Modelled from the spec: `app/schemas/enums.py` is not under `src/`.  The
spec's result statuses (exactly one per request), shared by `ChatStatus` and
`ModifyStatus`. -/
inductive ChatStatus
  | SUCCESS
  | ASK_CLARIFICATION
  | REJECTED
deriving Repr, DecidableEq

/-- `DailyItinerary` from `app/schemas/course.py`, restricted to the fields
the mutation and cascade code reads (`daily_date` is carried through
untouched and is omitted). -/
structure DailyItinerary where
  day_number : ℤ
  places : List CoursePlace
deriving Repr, DecidableEq

/-- The itinerary root dict (`ChatRoadmap` / `CourseResponse`), restricted to
the `itinerary` day list the mutation code reads. -/
structure Roadmap where
  itinerary : List DailyItinerary
deriving Repr, DecidableEq

/-- First day with the given `day_number` (the loop of `_find_day`). -/
def findFirstDay : List DailyItinerary → ℤ → Option DailyItinerary
  | [], _ => none
  | d :: ds, n => if d.day_number = n then some d else findFirstDay ds n

/-- `_find_day` (identical in both mutate nodes). -/
def _find_day (itinerary : Roadmap) (day_number : ℤ) : Option DailyItinerary :=
  findFirstDay itinerary.itinerary day_number

/-- Replace the first day with the given `day_number` — the functional image
of the source mutating, in place, the day object `_find_day` returned. -/
def setFirstDay : List DailyItinerary → ℤ → DailyItinerary → List DailyItinerary
  | [], _, _ => []
  | d :: ds, n, d' => if d.day_number = n then d' :: ds else d :: setFirstDay ds n d'

/-- The roadmap with the first day of the given number replaced. -/
def updateDay (r : Roadmap) (day_number : ℤ) (d' : DailyItinerary) : Roadmap :=
  ⟨setFirstDay r.itinerary day_number d'⟩

/-- `reorder_visit_sequence` from `app/graph/modify/utils.py` (the chat flow
imports an identically-named helper from the missing `app/graph/chat/utils.py`):
renumber `visit_sequence` densely from 1 in array order. -/
def reorder_visit_sequence (places : List CoursePlace) : List CoursePlace :=
  places.enum.map (fun iv => { iv.2 with visit_sequence := some ((iv.1 : ℤ) + 1) })

/-- `build_diff_key` from `app/graph/modify/utils.py` (likewise shared with
the chat flow): the literal `day<N>_place<M>` format. -/
def build_diff_key (day_number : ℤ) (visit_sequence : ℤ) : String :=
  "day" ++ toString day_number ++ "_place" ++ toString visit_sequence

/-- The outcome of one `_search_place` call, as seen by the mutate node: the
triple `(place | None, search_results, err | None)` it returns.  `fail` is
`err = {"error": msg}` (missing keyword or a raised search exception),
`clarify` is the zero-candidate `ASK_CLARIFICATION` dict, `found` is a
successful first candidate.  The network and LLM calls behind it make it an
input here. -/
inductive SearchOutcome
  | fail (search_results : List Place) (message : String)
  | clarify (search_results : List Place) (summary : String) (suggested : Option String)
  | found (place : Place) (search_results : List Place)
deriving Repr, DecidableEq

/-- The edit-intent dict of the chat flow (`ChatIntent.model_dump()` from
`app/schemas/chat.py`).  Every key is present in the dump, so the defaults of
the source's `intent.get(key, default)` calls are never consulted:
`destination_day = none` models a stored `None`. -/
structure ChatIntent where
  op : ChatOperation
  target_day : ℤ
  target_index : ℤ
  destination_day : Option ℤ
  destination_index : Option ℤ
  search_keyword : Option String
deriving Repr, DecidableEq

/-- The edit-intent dict of the modify flow (`ModifyIntent.model_dump()` from
`app/schemas/modify.py`).  That schema has no destination fields, so the
destination keys are absent from the dump unless injected by a caller;
`none` models an absent key, on which `intent.get(key, default)` falls back
to its default. -/
structure ModifyIntent where
  op : ChatOperation
  target_day : ℤ
  target_index : ℤ
  destination_day : Option ℤ
  destination_index : Option ℤ
  search_keyword : Option String
deriving Repr, DecidableEq

/-- The slice of the graph state (`ChatState` / `ModifyState`) that the two
mutate nodes read and write.  `{**state, ...}` returns (`state` with updated
fields) in this model. -/
structure ChatMutState where
  current_itinerary : Option Roadmap
  chatIntent : Option ChatIntent
  warnings : List String
  status : Option ChatStatus
  change_summary : Option String
  suggested_keyword : Option String
  search_results : List Place
  modified_itinerary : Option Roadmap
  diff_keys : List String
  error : Option String
deriving Repr, DecidableEq

/-- The modify-flow state slice (same shape, but carrying a `ModifyIntent`). -/
structure ModifyMutState where
  current_itinerary : Option Roadmap
  modifyIntent : Option ModifyIntent
  warnings : List String
  status : Option ChatStatus
  change_summary : Option String
  suggested_keyword : Option String
  search_results : List Place
  modified_itinerary : Option Roadmap
  diff_keys : List String
  error : Option String
deriving Repr, DecidableEq

namespace Chat

/-- `_place_to_course_place` from `app/graph/chat/nodes/mutate.py`. -/
def _place_to_course_place (place : Place) (visit_sequence : ℤ) : CoursePlace :=
  { place_name := place.name
    place_id := some place.place_id
    address := place.address
    latitude := some place.geometry.latitude
    longitude := some place.geometry.longitude
    place_url := place.url
    description := some (place.name ++ "에서 즐길 수 있는 대표 활동입니다.")
    visit_sequence := some visit_sequence
    visit_time := some ""
    sectionKey := none
    section_hint := none }

/-- The REPLACE branch of the chat `mutate` node. -/
def replaceOp (state : ChatMutState) (intent : ChatIntent) (cur : Roadmap)
    (day : DailyItinerary) (target_pos : ℤ) (search : SearchOutcome) : ChatMutState :=
  match search with
  | .fail sr msg => { state with search_results := sr, error := some msg }
  | .clarify sr summary sugg =>
    { state with search_results := sr, status := some .ASK_CLARIFICATION,
                 change_summary := some summary, suggested_keyword := sugg }
  | .found p sr =>
    let places := day.places.set target_pos.toNat (_place_to_course_place p intent.target_index)
    { state with
        modified_itinerary := some (updateDay cur intent.target_day { day with places := places }),
        diff_keys := [build_diff_key intent.target_day intent.target_index],
        search_results := sr }

/-- The ADD branch of the chat `mutate` node: refuse at 10 places, validate
the insertion position, insert, renumber, one diff key at the final
position. -/
def addOp (state : ChatMutState) (intent : ChatIntent) (cur : Roadmap)
    (day : DailyItinerary) (search : SearchOutcome) : ChatMutState :=
  if 10 ≤ (day.places.length : ℤ) then
    { state with status := some .REJECTED,
                 change_summary := some "하루 일정에는 최대 10개 장소까지만 추가할 수 있습니다." }
  else if intent.target_index < 1 ∨ (day.places.length : ℤ) + 1 < intent.target_index then
    { state with error := some (toString intent.target_day ++ "일차의 " ++
        toString intent.target_index ++ "번째 위치에는 추가할 수 없습니다.") }
  else
    let insert_pos : ℤ := intent.target_index - 1
    match search with
    | .fail sr msg => { state with search_results := sr, error := some msg }
    | .clarify sr summary sugg =>
      { state with search_results := sr, status := some .ASK_CLARIFICATION,
                   change_summary := some summary, suggested_keyword := sugg }
    | .found p sr =>
      let places :=
        reorder_visit_sequence (pyInsert insert_pos (_place_to_course_place p 0) day.places)
      { state with
          modified_itinerary := some (updateDay cur intent.target_day { day with places := places }),
          diff_keys := [build_diff_key intent.target_day (insert_pos + 1)],
          search_results := sr }

/-- The REMOVE branch of the chat `mutate` node: refuse at 1 place, remove,
renumber, one diff key at the removed position. -/
def removeOp (state : ChatMutState) (intent : ChatIntent) (cur : Roadmap)
    (day : DailyItinerary) (target_pos : ℤ) : ChatMutState :=
  if (day.places.length : ℤ) ≤ 1 then
    { state with status := some .REJECTED,
                 change_summary := some "하루 일정은 최소 1개 이상 유지되어야 합니다." }
  else
    let places := reorder_visit_sequence (day.places.eraseIdx target_pos.toNat)
    { state with
        modified_itinerary := some (updateDay cur intent.target_day { day with places := places }),
        diff_keys := [build_diff_key intent.target_day intent.target_index],
        search_results := [] }

/-- The MOVE branch of the chat `mutate` node.  A destination day different
from the target day (including a stored `None`) is refused up front, so the
source's cross-day `else` branch (chat mutate lines 159-171) is unreachable
and is not modelled.  When the stored `destination_index` is `None`, Python's
`max(1, None)` would raise; the total model uses the dict-get default 1
there, and every theorem touching MOVE assumes a present index. -/
def moveOp (state : ChatMutState) (intent : ChatIntent) (cur : Roadmap)
    (day : DailyItinerary) (target_pos : ℤ) : ChatMutState :=
  let dest_day_num : Option ℤ := intent.destination_day
  if dest_day_num ≠ some intent.target_day then
    { state with status := some .REJECTED,
                 change_summary := some "일자 간 이동은 지원하지 않습니다. 같은 일자 내 순서만 변경 가능합니다." }
  else
    let dest_index : ℤ := max 1 (intent.destination_index.getD 1)
    let dest_pos : ℤ := dest_index - 1
    match day.places.get? target_pos.toNat with
    | none => state
    | some moved =>
      let rest := day.places.eraseIdx target_pos.toNat
      let dest_pos2 : ℤ := min dest_pos (rest.length : ℤ)
      let places := reorder_visit_sequence (pyInsert dest_pos2 moved rest)
      { state with
          modified_itinerary := some (updateDay cur intent.target_day { day with places := places }),
          diff_keys := [build_diff_key intent.target_day (dest_pos2 + 1)],
          search_results := [] }

/-- `mutate` from `app/graph/chat/nodes/mutate.py`.  `search` is the outcome
`_search_place(intent, day)` would produce (consulted only by REPLACE and
ADD, exactly as in the source).  `copy.deepcopy` is the identity on values,
and all list/dict mutation below happens on the copy. -/
def mutate (state : ChatMutState) (search : SearchOutcome) : ChatMutState :=
  match state.chatIntent, state.current_itinerary with
  | some intent, some current_itinerary =>
    (match _find_day current_itinerary intent.target_day with
     | none =>
       { state with error := some (toString intent.target_day ++ "일차를 찾을 수 없습니다.") }
     | some day =>
       let target_pos : ℤ := intent.target_index - 1
       if (intent.op = .REPLACE ∨ intent.op = .REMOVE ∨ intent.op = .MOVE) ∧
           (target_pos < 0 ∨ (day.places.length : ℤ) ≤ target_pos) then
         { state with error := some (toString intent.target_day ++ "일차의 " ++
             toString intent.target_index ++ "번째 장소가 없습니다.") }
       else
         match intent.op with
         | .REPLACE => replaceOp state intent current_itinerary day target_pos search
         | .ADD => addOp state intent current_itinerary day search
         | .REMOVE => removeOp state intent current_itinerary day target_pos
         | .MOVE => moveOp state intent current_itinerary day target_pos)
  | _, _ => { state with error := some "mutate에는 intent와 current_itinerary가 필요합니다." }

/-- `_route_after_mutate` from `app/graph/chat/workflow.py` (every error the
graph stores is a non-empty string, so Python truthiness is `isSome`). -/
def _route_after_mutate (state : ChatMutState) : String :=
  if state.error.isSome then "respond"
  else if state.status = some ChatStatus.ASK_CLARIFICATION then "respond"
  else "cascade"

end Chat

namespace Modify

/-- `_place_to_course_place` from `app/graph/modify/nodes/mutate.py` (the
description is the bare place name here). -/
def _place_to_course_place (place : Place) (visit_sequence : ℤ) : CoursePlace :=
  { place_name := place.name
    place_id := some place.place_id
    address := place.address
    latitude := some place.geometry.latitude
    longitude := some place.geometry.longitude
    place_url := place.url
    description := some place.name
    visit_sequence := some visit_sequence
    visit_time := some ""
    sectionKey := none
    section_hint := none }

/-- The REPLACE branch of the modify `mutate` node. -/
def replaceOp (state : ModifyMutState) (intent : ModifyIntent) (cur : Roadmap)
    (day : DailyItinerary) (target_pos : ℤ) (search : SearchOutcome) : ModifyMutState :=
  match search with
  | .fail sr msg => { state with search_results := sr, error := some msg }
  | .clarify sr summary sugg =>
    { state with search_results := sr, status := some .ASK_CLARIFICATION,
                 change_summary := some summary, suggested_keyword := sugg }
  | .found p sr =>
    let places := day.places.set target_pos.toNat (_place_to_course_place p intent.target_index)
    { state with
        modified_itinerary := some (updateDay cur intent.target_day { day with places := places }),
        diff_keys := [build_diff_key intent.target_day intent.target_index],
        search_results := sr }

/-- The ADD branch of the modify `mutate` node: no place-count bound and no
position validation — the insert position is only clamped from above by the
day length (`min(target_pos, len(places))`). -/
def addOp (state : ModifyMutState) (intent : ModifyIntent) (cur : Roadmap)
    (day : DailyItinerary) (search : SearchOutcome) : ModifyMutState :=
  let insert_pos : ℤ := min (intent.target_index - 1) (day.places.length : ℤ)
  match search with
  | .fail sr msg => { state with search_results := sr, error := some msg }
  | .clarify sr summary sugg =>
    { state with search_results := sr, status := some .ASK_CLARIFICATION,
                 change_summary := some summary, suggested_keyword := sugg }
  | .found p sr =>
    let places :=
      reorder_visit_sequence (pyInsert insert_pos (_place_to_course_place p 0) day.places)
    { state with
        modified_itinerary := some (updateDay cur intent.target_day { day with places := places }),
        diff_keys := [build_diff_key intent.target_day (insert_pos + 1)],
        search_results := sr }

/-- The REMOVE branch of the modify `mutate` node: no minimum-count check. -/
def removeOp (state : ModifyMutState) (intent : ModifyIntent) (cur : Roadmap)
    (day : DailyItinerary) (target_pos : ℤ) : ModifyMutState :=
  let places := reorder_visit_sequence (day.places.eraseIdx target_pos.toNat)
  { state with
      modified_itinerary := some (updateDay cur intent.target_day { day with places := places }),
      diff_keys := [build_diff_key intent.target_day intent.target_index],
      search_results := [] }

/-- The MOVE branch of the modify `mutate` node: same-day moves as in the
chat flow but without the `max(1, ...)` clamp, and reachable cross-day moves
that pop from the source day, renumber it, insert into the destination day,
renumber that too, and emit a single diff key at the destination position. -/
def moveOp (state : ModifyMutState) (intent : ModifyIntent) (cur : Roadmap)
    (day : DailyItinerary) (target_pos : ℤ) : ModifyMutState :=
  let dest_day_num : ℤ := intent.destination_day.getD intent.target_day
  let dest_index : ℤ := intent.destination_index.getD 1
  let dest_pos : ℤ := dest_index - 1
  if dest_day_num = intent.target_day then
    match day.places.get? target_pos.toNat with
    | none => state
    | some moved =>
      let rest := day.places.eraseIdx target_pos.toNat
      let dest_pos2 : ℤ := min dest_pos (rest.length : ℤ)
      let places := reorder_visit_sequence (pyInsert dest_pos2 moved rest)
      { state with
          modified_itinerary := some (updateDay cur intent.target_day { day with places := places }),
          diff_keys := [build_diff_key intent.target_day (dest_pos2 + 1)],
          search_results := [] }
  else
    match _find_day cur dest_day_num with
    | none =>
      { state with error := some (toString dest_day_num ++ "일차를 찾을 수 없습니다.") }
    | some dest_day =>
      match day.places.get? target_pos.toNat with
      | none => state
      | some moved =>
        let source_places := reorder_visit_sequence (day.places.eraseIdx target_pos.toNat)
        let dest_pos2 : ℤ := min dest_pos (dest_day.places.length : ℤ)
        let dest_places := reorder_visit_sequence (pyInsert dest_pos2 moved dest_day.places)
        { state with
            modified_itinerary := some
              (updateDay (updateDay cur intent.target_day { day with places := source_places })
                dest_day_num { dest_day with places := dest_places }),
            diff_keys := [build_diff_key dest_day_num (dest_pos2 + 1)],
            search_results := [] }

/-- `mutate` from `app/graph/modify/nodes/mutate.py`. -/
def mutate (state : ModifyMutState) (search : SearchOutcome) : ModifyMutState :=
  match state.modifyIntent, state.current_itinerary with
  | some intent, some current_itinerary =>
    (match _find_day current_itinerary intent.target_day with
     | none =>
       { state with error := some (toString intent.target_day ++ "일차를 찾을 수 없습니다.") }
     | some day =>
       let target_pos : ℤ := intent.target_index - 1
       if (intent.op = .REPLACE ∨ intent.op = .REMOVE ∨ intent.op = .MOVE) ∧
           (target_pos < 0 ∨ (day.places.length : ℤ) ≤ target_pos) then
         { state with error := some (toString intent.target_day ++ "일차에 " ++
             toString intent.target_index ++ "번 장소가 없습니다.") }
       else
         match intent.op with
         | .REPLACE => replaceOp state intent current_itinerary day target_pos search
         | .ADD => addOp state intent current_itinerary day search
         | .REMOVE => removeOp state intent current_itinerary day target_pos
         | .MOVE => moveOp state intent current_itinerary day target_pos)
  | _, _ => { state with error := some "mutate에는 intent와 current_itinerary가 필요합니다." }

end Modify

/-! Helper lemmas. -/

/-- Closed form of the 30-minute ceiling on non-negative input. -/
theorem ceil_step_eq_of_nonneg (m : ℤ) (h : 0 ≤ m) :
    _ceil_minutes_to_step m 30 = if m % 30 = 0 then m else m + (30 - m % 30) := by
  have h1 : max (1 : ℤ) 30 = 30 := by norm_num
  simp only [_ceil_minutes_to_step, max_eq_right h, h1]

/-- Renumbering keeps the length. -/
theorem reorder_length (l : List CoursePlace) :
    (reorder_visit_sequence l).length = l.length := by
  simp [reorder_visit_sequence]

/-- Renumbering rewrites exactly the `visit_sequence` of each entry to its
1-based array position. -/
theorem reorder_visit_sequence_spec (l : List CoursePlace) :
    (reorder_visit_sequence l).length = l.length ∧
    ∀ j (hj : j < l.length) (hj2 : j < (reorder_visit_sequence l).length),
      (reorder_visit_sequence l)[j] = { l[j] with visit_sequence := some ((j : ℤ) + 1) } := by
  refine ⟨reorder_length l, fun j hj hj2 => ?_⟩
  simp [reorder_visit_sequence]

/-- A clamped non-negative Python insert is `List.insertIdx`. -/
theorem pyInsert_eq_insertIdx {α : Type} (i : ℤ) (a : α) (l : List α)
    (h0 : 0 ≤ i) (h1 : i ≤ (l.length : ℤ)) :
    pyInsert i a l = List.insertIdx i.toNat a l := by
  unfold pyInsert
  rw [if_neg (by omega), min_eq_left h1]

/-- Python insert always grows the list by one. -/
theorem pyInsert_length {α : Type} (i : ℤ) (a : α) (l : List α) :
    (pyInsert i a l).length = l.length + 1 := by
  unfold pyInsert
  split
  · rw [List.length_insertIdx _ _ (by omega)]
  · rw [List.length_insertIdx _ _ (by omega)]

/-- A found day is a member of the list. -/
theorem findFirstDay_mem {l : List DailyItinerary} {n : ℤ} {d : DailyItinerary}
    (h : findFirstDay l n = some d) : d ∈ l := by
  induction l with
  | nil => simp [findFirstDay] at h
  | cons x xs ih =>
    by_cases hx : x.day_number = n
    · simp [findFirstDay, hx] at h
      simp [h]
    · simp [findFirstDay, hx] at h
      exact List.mem_cons_of_mem _ (ih h)

/-- Every member of the updated day list is the replacement or an original
member. -/
theorem setFirstDay_mem {l : List DailyItinerary} {n : ℤ} {d' x : DailyItinerary}
    (h : x ∈ setFirstDay l n d') : x = d' ∨ x ∈ l := by
  induction l with
  | nil => simp [setFirstDay] at h
  | cons y ys ih =>
    by_cases hy : y.day_number = n
    · simp [setFirstDay, hy] at h
      rcases h with h | h
      · exact Or.inl h
      · exact Or.inr (List.mem_cons_of_mem _ h)
    · simp [setFirstDay, hy] at h
      rcases h with h | h
      · exact Or.inr (by simp [h])
      · rcases ih h with h2 | h2
        · exact Or.inl h2
        · exact Or.inr (List.mem_cons_of_mem _ h2)

/-! Fixtures for the concrete theorems: a minimal itinerary state, places
without coordinates, and intent values.  The `SearchOutcome` argument passed
to `mutate` in REMOVE/MOVE scenarios is never consulted by those branches. -/

/-- A coordinate-free place fixture. -/
def mkPlace (n : String) (sq : ℤ) : CoursePlace :=
  { place_name := n, place_id := none, address := none, latitude := none, longitude := none,
    place_url := none, description := none, visit_sequence := some sq, visit_time := some "",
    sectionKey := none, section_hint := none }

/-- A fresh chat-state around an itinerary and an intent. -/
def mkChatState (i : ChatIntent) (r : Roadmap) : ChatMutState :=
  ⟨some r, some i, [], none, none, none, [], none, [], none⟩

/-- A fresh modify-state around an itinerary and an intent. -/
def mkModifyState (i : ModifyIntent) (r : Roadmap) : ModifyMutState :=
  ⟨some r, some i, [], none, none, none, [], none, [], none⟩

/-- A day already holding the maximum ten places. -/
def tenPlaceDay : DailyItinerary :=
  ⟨1, (List.range 10).map (fun k => mkPlace ("p" ++ toString k) ((k : ℤ) + 1))⟩

/-- State for an ADD request against the full ten-place day. -/
def addAtTenState : ChatMutState :=
  mkChatState ⟨.ADD, 1, 1, none, none, some "라멘"⟩ ⟨[tenPlaceDay]⟩

/-- State for a REMOVE request against a one-place day in the modify flow. -/
def removeAtOneState : ModifyMutState :=
  mkModifyState ⟨.REMOVE, 1, 1, none, none, none⟩ ⟨[⟨1, [mkPlace "온천" 1]⟩]⟩

/-- State for a cross-day MOVE (day 1 place 1 to day 2 position 1) in the
modify flow. -/
def crossMoveState : ModifyMutState :=
  mkModifyState ⟨.MOVE, 1, 1, some 2, some 1, none⟩
    ⟨[⟨1, [mkPlace "a" 1]⟩, ⟨2, [mkPlace "x" 1, mkPlace "y" 2]⟩]⟩

/-- A candidate lying outside the unit rectangle. -/
def outsidePlace : Place :=
  ⟨"pid-out", "밖의 장소", none, ⟨5, 5⟩, none, []⟩

/-- The rectangle [0,1] × [0,1]. -/
def unitRect : GeoRectangle := ⟨0, 0, 1, 1⟩

/-- A candidate on the boundary of the unit rectangle (contained). -/
def insidePlace : Place :=
  ⟨"pid-in", "안의 장소", none, ⟨1, 1⟩, none, []⟩

/-! Claim theorems. -/

/-- C5: for every non-negative number of minutes, `_ceil_minutes_to_step`
with the 30-minute step returns the smallest multiple of 30 that is greater
than or equal to its input, and it is idempotent. -/
theorem ceil_minutes_to_step_correct (m : ℤ) (h : 0 ≤ m) :
    m ≤ _ceil_minutes_to_step m 30 ∧
    (30 : ℤ) ∣ _ceil_minutes_to_step m 30 ∧
    (∀ k : ℤ, (30 : ℤ) ∣ k → m ≤ k → _ceil_minutes_to_step m 30 ≤ k) ∧
    _ceil_minutes_to_step (_ceil_minutes_to_step m 30) 30 = _ceil_minutes_to_step m 30 := by
  have hmod : 0 ≤ m % 30 := Int.emod_nonneg m (by norm_num)
  have hlt : m % 30 < 30 := Int.emod_lt_of_pos m (by norm_num)
  have hdm : 30 * (m / 30) + m % 30 = m := Int.ediv_add_emod m 30
  rw [ceil_step_eq_of_nonneg m h]
  by_cases hr : m % 30 = 0
  · simp only [hr, if_pos]
    refine ⟨le_refl m, ?_, fun k _ hk => hk, ?_⟩
    · exact Int.dvd_of_emod_eq_zero hr
    · rw [ceil_step_eq_of_nonneg m h, if_pos hr]
  · simp only [hr, if_neg, if_false]
    have hle : m ≤ m + (30 - m % 30) := by omega
    have hd : (30 : ℤ) ∣ m + (30 - m % 30) := by
      have : (m + (30 - m % 30)) % 30 = 0 := by omega
      exact Int.dvd_of_emod_eq_zero this
    refine ⟨hle, hd, ?_, ?_⟩
    · intro k hk hmk
      obtain ⟨t, rfl⟩ := hk
      omega
    · have h2 : 0 ≤ m + (30 - m % 30) := by omega
      rw [ceil_step_eq_of_nonneg _ h2]
      have : (m + (30 - m % 30)) % 30 = 0 := by omega
      rw [if_pos this]

/-- Witness for C5 at the concrete input 47: 47 rounds up to a multiple of 30
at least 47 and at most 60. -/
theorem ceil_minutes_to_step_correct_witness :
    (0 : ℤ) ≤ 47 ∧ (47 : ℤ) ≤ _ceil_minutes_to_step 47 30 ∧ _ceil_minutes_to_step 47 30 ≤ 60 :=
  ⟨by decide, (ceil_minutes_to_step_correct 47 (by decide)).1,
    (ceil_minutes_to_step_correct 47 (by decide)).2.2.1 60 (by decide) (by decide)⟩

/-- C2: the ADD-at-10 refusal produced by the chat mutate node carries
`status = REJECTED` and no error, yet `_route_after_mutate` sends that state
to `"cascade"`, not to `"respond"` — the router only tests `error` and
`ASK_CLARIFICATION`, never `REJECTED`. -/
theorem rejected_add_routes_to_cascade :
    (Chat.mutate addAtTenState (.fail [] "x")).status = some ChatStatus.REJECTED ∧
    (Chat.mutate addAtTenState (.fail [] "x")).error = none ∧
    Chat._route_after_mutate (Chat.mutate addAtTenState (.fail [] "x")) = "cascade" := by
  decide

/-- C1 counterexample: in the modify-flow engine (cited by the claim), a
REMOVE against a day holding exactly one place is not refused: it succeeds
with no REJECTED status and leaves the day with zero places, breaking the
(1..10) band. -/
theorem modify_remove_at_min_not_rejected :
    (Modify.mutate removeAtOneState (.fail [] "x")).status ≠ some ChatStatus.REJECTED ∧
    (Modify.mutate removeAtOneState (.fail [] "x")).error = none ∧
    (Modify.mutate removeAtOneState (.fail [] "x")).modified_itinerary =
      some ⟨[⟨1, []⟩]⟩ := by
  decide

/-- C6 counterexample: the engine variant that actually performs cross-day
moves (the modify flow) emits exactly ONE diff key — the destination key —
not two; no source-day first-position key is emitted. -/
theorem modify_cross_day_move_single_diff_key :
    (Modify.mutate crossMoveState (.fail [] "x")).diff_keys = ["day2_place1"] ∧
    (Modify.mutate crossMoveState (.fail [] "x")).diff_keys.length = 1 ∧
    (Modify.mutate crossMoveState (.fail [] "x")).modified_itinerary =
      some ⟨[⟨1, []⟩, ⟨2, [mkPlace "a" 1, mkPlace "x" 2, mkPlace "y" 3]⟩]⟩ := by
  decide

/-- C8 counterexample: when the geo-restricted first search returns nothing,
the first fallback's results are accepted without the client-side rectangle
filter, so the accepted first candidate can lie outside the original
rectangle. -/
theorem search_fallback_accepts_outside_rectangle :
    searchPlaceCandidates (some unitRect) [] [outsidePlace] [] = [outsidePlace] ∧
    (searchPlaceCandidates (some unitRect) [] [outsidePlace] []).head? = some outsidePlace ∧
    unitRect.contains outsidePlace.geometry.latitude outsidePlace.geometry.longitude = false := by
  decide

/-- C3 counterexample: at distance 17/150 km with the default factor 15 and
base 10, the value `d * factor + base = 11.7` is converted to 11 by the
source's `int(...)` truncation, while the spec's `round(...)` gives 12. -/
theorem calc_transit_minutes_truncates_not_rounds :
    calc_transit_minutes (17/150) 15 10 = 11 ∧
    calc_transit_minutes_spec (17/150) 15 10 = 12 := by
  have harg : ((17/150 : ℚ) * 15 + 10) = 117/10 := by norm_num
  have harg2 : ((117/10 : ℚ) + 1/2) = 61/5 := by norm_num
  constructor
  · show pyInt ((17/150 : ℚ) * 15 + (10 : ℤ)) = 11
    rw [show (((10 : ℤ) : ℚ)) = (10 : ℚ) by norm_num, harg]
    show ((117/10 : ℚ)).num.tdiv ((117/10 : ℚ)).den = 11
    rw [show ((117/10 : ℚ)).num = 117 by norm_num, show ((117/10 : ℚ)).den = 10 by norm_num]
    decide
  · show roundNearest ((17/150 : ℚ) * 15 + (10 : ℤ)) = 12
    rw [show (((10 : ℤ) : ℚ)) = (10 : ℚ) by norm_num, harg]
    show ((117/10 : ℚ) + 1/2).num.fdiv ((117/10 : ℚ) + 1/2).den = 12
    rw [harg2]
    rw [show ((61/5 : ℚ)).num = 61 by norm_num, show ((61/5 : ℚ)).den = 5 by norm_num]
    decide

/-- C7: no branch of either mutate node touches the caller's
`current_itinerary`: after the call, on success, rejection, clarification or
error, the state's `current_itinerary` is the value it held before.  (The
returned `modified_itinerary`, when present, is built from the deep copy —
in this value model, constructed afresh from the input value.) -/
theorem mutate_preserves_current_itinerary :
    (∀ (s : ChatMutState) (search : SearchOutcome),
      (Chat.mutate s search).current_itinerary = s.current_itinerary) ∧
    (∀ (s : ModifyMutState) (search : SearchOutcome),
      (Modify.mutate s search).current_itinerary = s.current_itinerary) := by
  constructor
  · intro s search
    unfold Chat.mutate Chat.replaceOp Chat.addOp Chat.removeOp Chat.moveOp
    repeat' split
    all_goals dsimp only
    repeat' split
    all_goals rfl
  · intro s search
    unfold Modify.mutate Modify.replaceOp Modify.addOp Modify.removeOp Modify.moveOp
    repeat' split
    all_goals dsimp only
    repeat' split
    all_goals rfl

/-- C9: a same-day MOVE with a valid target pops the target place, clamps
the destination into [0, remaining length], reinserts it there, renumbers
`visit_sequence` densely 1..N in array order, and emits exactly one diff key
at the final destination position. -/
theorem chat_move_same_day_behavior
    (s : ChatMutState) (i : ChatIntent) (r : Roadmap) (day : DailyItinerary)
    (search : SearchOutcome) (di : ℤ) (moved : CoursePlace)
    (hI : s.chatIntent = some i) (hC : s.current_itinerary = some r)
    (hop : i.op = .MOVE)
    (hfd : _find_day r i.target_day = some day)
    (hdd : i.destination_day = some i.target_day)
    (hdi : i.destination_index = some di)
    (ht1 : 1 ≤ i.target_index) (ht2 : i.target_index ≤ (day.places.length : ℤ))
    (hmv : day.places.get? (i.target_index - 1).toNat = some moved) :
    let rest := day.places.eraseIdx (i.target_index - 1).toNat
    let dest_pos2 : ℤ := min (max 1 di - 1) (rest.length : ℤ)
    let newPlaces := reorder_visit_sequence (List.insertIdx dest_pos2.toNat moved rest)
    (Chat.mutate s search).modified_itinerary =
      some (updateDay r i.target_day { day with places := newPlaces }) ∧
    (Chat.mutate s search).diff_keys = [build_diff_key i.target_day (dest_pos2 + 1)] ∧
    0 ≤ dest_pos2 ∧ dest_pos2 ≤ (rest.length : ℤ) ∧
    newPlaces.length = day.places.length ∧
    (∀ j (hj : j < newPlaces.length), newPlaces[j].visit_sequence = some ((j : ℤ) + 1)) := by
  intro rest dest_pos2 newPlaces
  have hrl : rest.length = day.places.length - 1 := by
    have hlt : (i.target_index - 1).toNat < day.places.length := by omega
    simp only [rest, List.length_eraseIdx]
    rw [if_pos hlt]
  have h0 : 0 ≤ dest_pos2 := by
    have : (1 : ℤ) ≤ max 1 di := le_max_left _ _
    simp only [dest_pos2]
    omega
  have h1 : dest_pos2 ≤ (rest.length : ℤ) := min_le_right _ _
  have hil : (List.insertIdx dest_pos2.toNat moved rest).length = rest.length + 1 := by
    rw [List.length_insertIdx _ _ (by omega)]
  have hnl : newPlaces.length = day.places.length := by
    simp only [newPlaces, reorder_length, hil]
    omega
  have hmain :
      Chat.mutate s search =
        { s with
            modified_itinerary :=
              some (updateDay r i.target_day { day with places := newPlaces }),
            diff_keys := [build_diff_key i.target_day (dest_pos2 + 1)],
            search_results := [] } := by
    unfold Chat.mutate
    rw [hI, hC]
    simp only [hfd]
    rw [if_neg (by
      rintro ⟨-, hbad⟩
      omega)]
    rw [hop]
    unfold Chat.moveOp
    rw [hdd]
    rw [if_neg (by simp)]
    rw [hdi]
    simp only [hmv, Option.getD_some]
    rw [pyInsert_eq_insertIdx _ _ _ h0 h1]
    simp only [hC, hI]
  rw [hmain]
  refine ⟨rfl, rfl, h0, h1, hnl, ?_⟩
  intro j hj
  have hj2 : j < (List.insertIdx dest_pos2.toNat moved rest).length := by
    rw [hil]
    omega
  have := (reorder_visit_sequence_spec (List.insertIdx dest_pos2.toNat moved rest)).2 j
    (by omega) hj
  rw [this]

/-- Witness for C9, spec scenario D: MOVE target 1 to destination 3 in a
3-place day gives order [old2, old3, old1], sequences 1..3 and the single
diff key `day1_place3`. -/
theorem chat_move_same_day_behavior_witness :
    (Chat.mutate
        (mkChatState ⟨.MOVE, 1, 1, some 1, some 3, none⟩
          ⟨[⟨1, [mkPlace "a" 1, mkPlace "b" 2, mkPlace "c" 3]⟩]⟩)
        (.fail [] "x")).diff_keys = ["day1_place3"] ∧
    (Chat.mutate
        (mkChatState ⟨.MOVE, 1, 1, some 1, some 3, none⟩
          ⟨[⟨1, [mkPlace "a" 1, mkPlace "b" 2, mkPlace "c" 3]⟩]⟩)
        (.fail [] "x")).modified_itinerary =
      some ⟨[⟨1, [mkPlace "b" 1, mkPlace "c" 2, mkPlace "a" 3]⟩]⟩ := by
  have h := chat_move_same_day_behavior
    (mkChatState ⟨.MOVE, 1, 1, some 1, some 3, none⟩
      ⟨[⟨1, [mkPlace "a" 1, mkPlace "b" 2, mkPlace "c" 3]⟩]⟩)
    ⟨.MOVE, 1, 1, some 1, some 3, none⟩
    ⟨[⟨1, [mkPlace "a" 1, mkPlace "b" 2, mkPlace "c" 3]⟩]⟩
    ⟨1, [mkPlace "a" 1, mkPlace "b" 2, mkPlace "c" 3]⟩
    (.fail [] "x") 3 (mkPlace "a" 1)
    (by decide) (by decide) (by decide) (by decide) (by decide) (by decide)
    (by decide) (by decide) (by decide)
  refine ⟨?_, ?_⟩
  · rw [h.2.1]
    decide
  · rw [h.1]
    decide

/-- Closed form of the fallback pipeline when a day rectangle exists. -/
theorem searchPlaceCandidates_some_eq (r : GeoRectangle) (s0 s1 s2 : List Place) :
    searchPlaceCandidates (some r) s0 s1 s2 =
      if (if s0 = [] then s0 else (_hard_filter_by_bbox s0 r).1) = [] then
        (if s1 = [] then s2 else s1)
      else (if s0 = [] then s0 else (_hard_filter_by_bbox s0 r).1) := by
  unfold searchPlaceCandidates
  by_cases hs0 : s0 = []
  · subst hs0
    by_cases h1 : s1 = []
    · subst h1
      simp [_hard_filter_by_bbox]
    · simp [h1, List.isEmpty_iff]
  · by_cases hf : (_hard_filter_by_bbox s0 r).1 = []
    · by_cases h1 : s1 = []
      · subst h1
        simp [hs0, hf, List.isEmpty_iff]
      · simp [hs0, hf, h1, List.isEmpty_iff]
    · simp [hs0, hf, List.isEmpty_iff]

/-- C8 amended: only the first, geo-restricted search is hard-filtered by the
rectangle (its accepted candidates all lie inside it); when that stage ends
empty the engine falls back, sequentially, to a search with no geographic
argument at all (rating kept) and then to a fully unfiltered search, and
accepts those results without rectangle filtering; without a rectangle there
is no geographic fallback stage. -/
theorem search_fallback_stage_behavior (r : GeoRectangle) (s0 s1 s2 : List Place) :
    (¬ (_hard_filter_by_bbox s0 r).1 = [] →
      searchPlaceCandidates (some r) s0 s1 s2 = (_hard_filter_by_bbox s0 r).1 ∧
      ∀ p ∈ searchPlaceCandidates (some r) s0 s1 s2,
        r.contains p.geometry.latitude p.geometry.longitude = true) ∧
    ((_hard_filter_by_bbox s0 r).1 = [] →
      searchPlaceCandidates (some r) s0 s1 s2 = if s1 = [] then s2 else s1) ∧
    (searchPlaceCandidates none s0 s1 s2 = if s0 = [] then s2 else s0) := by
  refine ⟨?_, ?_, ?_⟩
  · intro hne
    have hs0 : ¬ s0 = [] := by
      intro h
      exact hne (by simp [h, _hard_filter_by_bbox])
    have heq : searchPlaceCandidates (some r) s0 s1 s2 = (_hard_filter_by_bbox s0 r).1 := by
      rw [searchPlaceCandidates_some_eq, if_neg hs0, if_neg hne]
    refine ⟨heq, ?_⟩
    intro p hp
    rw [heq] at hp
    simp only [_hard_filter_by_bbox, List.mem_filter] at hp
    exact hp.2
  · intro hemp
    rw [searchPlaceCandidates_some_eq]
    by_cases hs0 : s0 = []
    · simp [hs0]
    · rw [if_neg hs0, if_pos hemp]
  · unfold searchPlaceCandidates
    by_cases hs0 : s0 = [] <;> simp [hs0, List.isEmpty_iff]

/-- Witness for C8 at a concrete in-rectangle candidate: the restricted
stage's accepted candidate set is its rectangle-filtered result, contained in
the rectangle. -/
theorem search_fallback_stage_behavior_witness :
    searchPlaceCandidates (some unitRect) [insidePlace] [] [] =
      (_hard_filter_by_bbox [insidePlace] unitRect).1 ∧
    unitRect.contains insidePlace.geometry.latitude insidePlace.geometry.longitude = true :=
  ⟨((search_fallback_stage_behavior unitRect [insidePlace] [] []).1 (by decide)).1,
    ((search_fallback_stage_behavior unitRect [insidePlace] [] []).1 (by decide)).2
      insidePlace (by decide)⟩

/-- C6 amended: in the engine variant that supports cross-day MOVE (the
modify flow), with existing source and destination days and a valid target,
the place is popped from the source day, the source day is renumbered, the
place is inserted into the destination day at the clamped position, the
destination day is renumbered — and exactly ONE diff key is emitted, naming
the destination position (no source-day key). -/
theorem modify_cross_day_move_behavior
    (s : ModifyMutState) (i : ModifyIntent) (r : Roadmap) (day dest_day : DailyItinerary)
    (search : SearchOutcome) (dd di : ℤ) (moved : CoursePlace)
    (hI : s.modifyIntent = some i) (hC : s.current_itinerary = some r)
    (hop : i.op = .MOVE)
    (hdd : i.destination_day = some dd) (hne : dd ≠ i.target_day)
    (hdi : i.destination_index = some di)
    (hfd : _find_day r i.target_day = some day)
    (hfdd : _find_day r dd = some dest_day)
    (ht1 : 1 ≤ i.target_index) (ht2 : i.target_index ≤ (day.places.length : ℤ))
    (hmv : day.places.get? (i.target_index - 1).toNat = some moved) :
    let source_places := reorder_visit_sequence (day.places.eraseIdx (i.target_index - 1).toNat)
    let dest_pos2 : ℤ := min (di - 1) (dest_day.places.length : ℤ)
    let dest_places := reorder_visit_sequence (pyInsert dest_pos2 moved dest_day.places)
    (Modify.mutate s search).modified_itinerary =
      some (updateDay (updateDay r i.target_day { day with places := source_places })
        dd { dest_day with places := dest_places }) ∧
    (Modify.mutate s search).diff_keys = [build_diff_key dd (dest_pos2 + 1)] ∧
    (Modify.mutate s search).diff_keys.length = 1 ∧
    source_places.length = day.places.length - 1 ∧
    dest_places.length = dest_day.places.length + 1 ∧
    (∀ j (hj : j < source_places.length), source_places[j].visit_sequence = some ((j : ℤ) + 1)) ∧
    (∀ j (hj : j < dest_places.length), dest_places[j].visit_sequence = some ((j : ℤ) + 1)) := by
  intro source_places dest_pos2 dest_places
  have hmain :
      Modify.mutate s search =
        { s with
            modified_itinerary :=
              some (updateDay (updateDay r i.target_day { day with places := source_places })
                dd { dest_day with places := dest_places }),
            diff_keys := [build_diff_key dd (dest_pos2 + 1)],
            search_results := [] } := by
    unfold Modify.mutate
    rw [hI, hC]
    simp only [hfd]
    rw [if_neg (by
      rintro ⟨-, hbad⟩
      omega)]
    rw [hop]
    unfold Modify.moveOp
    rw [hdd, hdi]
    simp only [Option.getD_some]
    rw [if_neg hne]
    simp only [hfdd, hmv]
    simp only [hC, hI]
  rw [hmain]
  have hsl : source_places.length = day.places.length - 1 := by
    have hlt : (i.target_index - 1).toNat < day.places.length := by omega
    simp only [source_places, reorder_length, List.length_eraseIdx]
    rw [if_pos hlt]
  have hdl : dest_places.length = dest_day.places.length + 1 := by
    simp only [dest_places, reorder_length, pyInsert_length]
  refine ⟨rfl, rfl, rfl, hsl, hdl, ?_, ?_⟩
  · intro j hj
    have hl1 : source_places.length = (day.places.eraseIdx (i.target_index - 1).toNat).length := by
      simp only [source_places, reorder_length]
    have hj0 : j < (day.places.eraseIdx (i.target_index - 1).toNat).length := by omega
    have h2 := (reorder_visit_sequence_spec _).2 j hj0 hj
    rw [h2]
  · intro j hj
    have hl1 : dest_places.length = (pyInsert dest_pos2 moved dest_day.places).length := by
      simp only [dest_places, reorder_length]
    have hj0 : j < (pyInsert dest_pos2 moved dest_day.places).length := by omega
    have h2 := (reorder_visit_sequence_spec _).2 j hj0 hj
    rw [h2]

/-- Witness for C6 at the concrete cross-day move of `crossMoveState`:
exactly one diff key, and both days renumbered as described. -/
theorem modify_cross_day_move_behavior_witness :
    (Modify.mutate crossMoveState (.fail [] "x")).diff_keys.length = 1 ∧
    (Modify.mutate crossMoveState (.fail [] "x")).modified_itinerary =
      some ⟨[⟨1, []⟩, ⟨2, [mkPlace "a" 1, mkPlace "x" 2, mkPlace "y" 3]⟩]⟩ := by
  have h := modify_cross_day_move_behavior crossMoveState
    ⟨.MOVE, 1, 1, some 2, some 1, none⟩
    ⟨[⟨1, [mkPlace "a" 1]⟩, ⟨2, [mkPlace "x" 1, mkPlace "y" 2]⟩]⟩
    ⟨1, [mkPlace "a" 1]⟩ ⟨2, [mkPlace "x" 1, mkPlace "y" 2]⟩
    (.fail [] "x") 2 1 (mkPlace "a" 1)
    (by decide) (by decide) (by decide) (by decide) (by decide) (by decide)
    (by decide) (by decide) (by decide) (by decide) (by decide)
  refine ⟨h.2.2.1, ?_⟩
  rw [h.1]
  decide

/-- Replacing one in-bounds day keeps every day of the roadmap in bounds. -/
theorem bounds_of_updateDay {r : Roadmap}
    (hb : ∀ d ∈ r.itinerary, 1 ≤ d.places.length ∧ d.places.length ≤ 10)
    {n : ℤ} {day' : DailyItinerary}
    (hd : 1 ≤ day'.places.length ∧ day'.places.length ≤ 10) :
    ∀ d ∈ (updateDay r n day').itinerary, 1 ≤ d.places.length ∧ d.places.length ≤ 10 := by
  intro d hmem
  rcases setFirstDay_mem hmem with h | h
  · rw [h]
    exact hd
  · exact hb d h

/-- The chat ADD refusal at ten places, as a full-state equation. -/
theorem chat_add_at_max (s : ChatMutState) (search : SearchOutcome) (i : ChatIntent)
    (r : Roadmap) (day : DailyItinerary)
    (hI : s.chatIntent = some i) (hC : s.current_itinerary = some r)
    (hop : i.op = .ADD) (hfd : _find_day r i.target_day = some day)
    (h10 : 10 ≤ day.places.length) :
    Chat.mutate s search =
      { s with status := some ChatStatus.REJECTED,
               change_summary := some "하루 일정에는 최대 10개 장소까지만 추가할 수 있습니다." } := by
  unfold Chat.mutate
  dsimp only
  rw [hI, hC]
  simp only [hfd]
  rw [if_neg (by
    rintro ⟨h1, -⟩
    rw [hop] at h1
    rcases h1 with h | h | h <;> simp at h)]
  rw [hop]
  unfold Chat.addOp
  rw [if_pos (by exact_mod_cast h10)]
  simp only [hI, hC]

/-- The chat REMOVE refusal at one place, as a full-state equation. -/
theorem chat_remove_at_min (s : ChatMutState) (search : SearchOutcome) (i : ChatIntent)
    (r : Roadmap) (day : DailyItinerary)
    (hI : s.chatIntent = some i) (hC : s.current_itinerary = some r)
    (hop : i.op = .REMOVE) (ht : i.target_index = 1)
    (hfd : _find_day r i.target_day = some day)
    (h1 : day.places.length = 1) :
    Chat.mutate s search =
      { s with status := some ChatStatus.REJECTED,
               change_summary := some "하루 일정은 최소 1개 이상 유지되어야 합니다." } := by
  unfold Chat.mutate
  dsimp only
  rw [hI, hC]
  simp only [hfd]
  rw [if_neg (by
    rintro ⟨-, hbad⟩
    rw [ht, h1] at hbad
    omega)]
  rw [hop]
  unfold Chat.removeOp
  rw [if_pos (by rw [h1]; norm_num)]
  simp only [hI, hC]

/-- C1 amended: in the chat-flow mutation engine, every day of an in-bounds
itinerary still holds between 1 and 10 places after any successful mutation;
an ADD against a day at 10 places and a REMOVE targeting a day's only place
are refused with REJECTED, leaving the whole state (itinerary, diff keys)
unchanged apart from the rejection fields; and repeating the refused request
returns the identical rejected state.  (The modify-flow variant performs ADD
and REMOVE without these checks — see the counterexample.) -/
theorem chat_mutate_place_count_invariant :
    (∀ (s : ChatMutState) (search : SearchOutcome) (r r' : Roadmap),
      s.current_itinerary = some r →
      (∀ d ∈ r.itinerary, 1 ≤ d.places.length ∧ d.places.length ≤ 10) →
      s.modified_itinerary = none →
      (Chat.mutate s search).modified_itinerary = some r' →
      ∀ d ∈ r'.itinerary, 1 ≤ d.places.length ∧ d.places.length ≤ 10) ∧
    (∀ (s : ChatMutState) (search : SearchOutcome) (i : ChatIntent) (r : Roadmap)
        (day : DailyItinerary),
      s.chatIntent = some i → s.current_itinerary = some r → i.op = .ADD →
      _find_day r i.target_day = some day → 10 ≤ day.places.length →
      Chat.mutate s search =
        { s with status := some ChatStatus.REJECTED,
                 change_summary := some "하루 일정에는 최대 10개 장소까지만 추가할 수 있습니다." } ∧
      Chat.mutate (Chat.mutate s search) search = Chat.mutate s search) ∧
    (∀ (s : ChatMutState) (search : SearchOutcome) (i : ChatIntent) (r : Roadmap)
        (day : DailyItinerary),
      s.chatIntent = some i → s.current_itinerary = some r → i.op = .REMOVE →
      i.target_index = 1 → _find_day r i.target_day = some day → day.places.length = 1 →
      Chat.mutate s search =
        { s with status := some ChatStatus.REJECTED,
                 change_summary := some "하루 일정은 최소 1개 이상 유지되어야 합니다." } ∧
      Chat.mutate (Chat.mutate s search) search = Chat.mutate s search) := by
  refine ⟨?_, ?_, ?_⟩
  · intro s search r r' hC hb hnone hsome
    rcases hI : s.chatIntent with _ | i
    · unfold Chat.mutate at hsome
      rw [hI, hC] at hsome
      dsimp only at hsome
      simp [hnone] at hsome
    · unfold Chat.mutate at hsome
      rw [hI, hC] at hsome
      dsimp only at hsome
      rcases hfd : _find_day r i.target_day with _ | day
      · rw [hfd] at hsome
        dsimp only at hsome
        simp [hnone] at hsome
      · rw [hfd] at hsome
        dsimp only at hsome
        have hday := hb day (findFirstDay_mem hfd)
        split at hsome
        · simp [hnone] at hsome
        · rename_i hvalid
          rcases hop : i.op with _ | _ | _ | _
          -- REPLACE
          · rw [hop] at hsome
            dsimp only at hsome
            unfold Chat.replaceOp at hsome
            rcases search with ⟨sr, msg⟩ | ⟨sr, summ, sugg⟩ | ⟨p, sr⟩
            · simp [hnone] at hsome
            · simp [hnone] at hsome
            · dsimp only at hsome
              rw [Option.some_inj] at hsome
              subst hsome
              exact bounds_of_updateDay hb (by simpa [List.length_set] using hday)
          -- ADD
          · rw [hop] at hsome
            dsimp only at hsome
            unfold Chat.addOp at hsome
            split at hsome
            · simp [hnone] at hsome
            · rename_i h10
              split at hsome
              · simp [hnone] at hsome
              · rcases search with ⟨sr, msg⟩ | ⟨sr, summ, sugg⟩ | ⟨p, sr⟩
                · simp [hnone] at hsome
                · simp [hnone] at hsome
                · dsimp only at hsome
                  rw [Option.some_inj] at hsome
                  subst hsome
                  refine bounds_of_updateDay hb ?_
                  have hlen :
                      (reorder_visit_sequence (pyInsert (i.target_index - 1)
                        (Chat._place_to_course_place p 0) day.places)).length =
                        day.places.length + 1 := by
                    rw [reorder_length, pyInsert_length]
                  constructor
                  · simp only [hlen]
                    omega
                  · simp only [hlen]
                    omega
          -- REMOVE
          · rw [hop] at hsome
            dsimp only at hsome
            unfold Chat.removeOp at hsome
            split at hsome
            · simp [hnone] at hsome
            · rename_i hmin
              dsimp only at hsome
              rw [Option.some_inj] at hsome
              subst hsome
              refine bounds_of_updateDay hb ?_
              have hidx : ¬(i.target_index - 1 < 0 ∨
                  (day.places.length : ℤ) ≤ i.target_index - 1) :=
                fun hbad => hvalid ⟨Or.inr (Or.inl hop), hbad⟩
              push_neg at hidx
              have hlt : (i.target_index - 1).toNat < day.places.length := by omega
              have hlen :
                  (reorder_visit_sequence
                    (day.places.eraseIdx (i.target_index - 1).toNat)).length =
                    day.places.length - 1 := by
                rw [reorder_length, List.length_eraseIdx, if_pos hlt]
              constructor
              · simp only [hlen]
                omega
              · simp only [hlen]
                omega
          -- MOVE
          · rw [hop] at hsome
            dsimp only at hsome
            unfold Chat.moveOp at hsome
            dsimp only at hsome
            by_cases hdest : i.destination_day = some i.target_day
            · rw [if_neg (not_not_intro hdest)] at hsome
              rcases hget : day.places.get? (i.target_index - 1).toNat with _ | moved
              · rw [hget] at hsome
                dsimp only at hsome
                simp [hnone] at hsome
              · rw [hget] at hsome
                dsimp only at hsome
                rw [Option.some_inj] at hsome
                subst hsome
                refine bounds_of_updateDay hb ?_
                have hidx : ¬(i.target_index - 1 < 0 ∨
                    (day.places.length : ℤ) ≤ i.target_index - 1) :=
                  fun hbad => hvalid ⟨Or.inr (Or.inr hop), hbad⟩
                push_neg at hidx
                have hlt : (i.target_index - 1).toNat < day.places.length := by omega
                have hrl : (day.places.eraseIdx (i.target_index - 1).toNat).length =
                    day.places.length - 1 := by
                  rw [List.length_eraseIdx, if_pos hlt]
                have hlen :
                    (reorder_visit_sequence (pyInsert
                      (min (max 1 ((i.destination_index.getD 1)) - 1)
                        ((day.places.eraseIdx (i.target_index - 1).toNat).length : ℤ))
                      moved (day.places.eraseIdx (i.target_index - 1).toNat))).length =
                      day.places.length := by
                  rw [reorder_length, pyInsert_length, hrl]
                  omega
                constructor
                · simp only [hlen]
                  omega
                · simp only [hlen]
                  omega
            · rw [if_pos hdest] at hsome
              simp [hnone] at hsome
  · intro s search i r day hI hC hop hfd h10
    have h := chat_add_at_max s search i r day hI hC hop hfd h10
    refine ⟨h, ?_⟩
    rw [h]
    have h2 := chat_add_at_max
      { s with status := some ChatStatus.REJECTED,
               change_summary := some "하루 일정에는 최대 10개 장소까지만 추가할 수 있습니다." }
      search i r day hI hC hop hfd h10
    exact h2.trans rfl
  · intro s search i r day hI hC hop ht hfd h1
    have h := chat_remove_at_min s search i r day hI hC hop ht hfd h1
    refine ⟨h, ?_⟩
    rw [h]
    have h2 := chat_remove_at_min
      { s with status := some ChatStatus.REJECTED,
               change_summary := some "하루 일정은 최소 1개 이상 유지되어야 합니다." }
      search i r day hI hC hop ht hfd h1
    exact h2.trans rfl

/-- The expected refusal state for the C1 witness. -/
def addAtTenRejected : ChatMutState :=
  { addAtTenState with
    status := some ChatStatus.REJECTED,
    change_summary := some "하루 일정에는 최대 10개 장소까지만 추가할 수 있습니다." }

/-- Witness for C1: the ADD-at-ten refusal at `addAtTenState` is REJECTED and
repeating the refused request returns the same state. -/
theorem chat_mutate_place_count_invariant_witness :
    Chat.mutate addAtTenState (.fail [] "x") = addAtTenRejected ∧
    Chat.mutate (Chat.mutate addAtTenState (.fail [] "x")) (.fail [] "x") =
      Chat.mutate addAtTenState (.fail [] "x") :=
  chat_mutate_place_count_invariant.2.1 addAtTenState (.fail [] "x")
    ⟨.ADD, 1, 1, none, none, some "라멘"⟩ ⟨[tenPlaceDay]⟩ tenPlaceDay
    (by decide) (by decide) (by decide) (by decide) (by decide)

/-- Strings differing at some position of their reversed character lists
differ. -/
theorem string_ne_of_rev_nth {x y : String} (n : ℕ)
    (h : x.data.reverse.get? n ≠ y.data.reverse.get? n) : x ≠ y :=
  fun he => h (by rw [he])

/-- Reversed-position lookup inside the fixed literal tail of an
appended string. -/
theorem rev_nth_append_lit (xs lit : List Char) (n : ℕ) (hn : n < lit.length) :
    ((xs ++ lit).reverse).get? n = lit.reverse.get? n := by
  rw [List.reverse_append]
  exact List.get?_append (by simpa using hn)

/-- A walk warning is never the overage warning (their fixed tails differ at
the last character). -/
theorem walkWarning_ne_overageWarning (l l2 : String) (p q : CoursePlace) (t : ℤ) :
    walkWarning l p q t ≠ overageWarning l2 := by
  apply string_ne_of_rev_nth 0
  unfold walkWarning overageWarning
  simp only [String.data_append]
  rw [rev_nth_append_lit _ _ 0 (by decide), rev_nth_append_lit _ _ 0 (by decide)]
  decide

/-- A late-arrival warning is never the overage warning (their fixed tails
differ). -/
theorem lateWarning_ne_overageWarning (l l2 : String) (p : CoursePlace) (a : ℤ) :
    lateWarning l p a ≠ overageWarning l2 := by
  apply string_ne_of_rev_nth 3
  unfold lateWarning overageWarning
  simp only [String.data_append]
  rw [rev_nth_append_lit _ _ 3 (by decide), rev_nth_append_lit _ _ 3 (by decide)]
  decide

/-- Shape of the cascade loop output: the place list keeps its length and
the assigned-minutes trace never exceeds it. -/
theorem visitTimeLoop_shape (dist : DistKmFn) (cfg : VisitTimePolicyConfig)
    (label : String) (props : ℤ → Option String) (mode : VisitTimeOutputMode) :
    ∀ (places : List CoursePlace) (prev : Option (CoursePlace × ℤ)) (idx : ℕ),
      (visitTimeLoop dist cfg label props mode places prev idx).1.length = places.length ∧
      (visitTimeLoop dist cfg label props mode places prev idx).2.2.length ≤ places.length := by
  intro places
  induction places with
  | nil =>
    intro prev idx
    simp [visitTimeLoop]
  | cons p rest ih =>
    intro prev idx
    simp only [visitTimeLoop]
    split
    · simp
    · constructor
      · simp [(ih _ _).1]
      · have h2 := (ih (some (p, stepAssignedTime dist cfg props prev p idx)) (idx + 1)).2
        simp only [List.length_cons]
        omega

/-- Frame property of the cascade loop: every output entry is the input
entry with only `visit_time` rewritten and the section keys removed. -/
theorem visitTimeLoop_frame (dist : DistKmFn) (cfg : VisitTimePolicyConfig)
    (label : String) (props : ℤ → Option String) (mode : VisitTimeOutputMode) :
    ∀ (places : List CoursePlace) (prev : Option (CoursePlace × ℤ)) (idx : ℕ)
      (j : ℕ) (hj : j < places.length),
      ∃ t, (visitTimeLoop dist cfg label props mode places prev idx).1[j]? =
        some { places[j] with
               visit_time := some t, sectionKey := none, section_hint := none } := by
  intro places
  induction places with
  | nil =>
    intro prev idx j hj
    exact absurd hj (by simp)
  | cons p rest ih =>
    intro prev idx j hj
    simp only [visitTimeLoop]
    split
    · refine ⟨"일정 초과", ?_⟩
      rw [List.getElem?_map, List.getElem?_eq_getElem hj]
      rfl
    · rcases j with _ | j'
      · exact ⟨_format_visit_time (stepAssignedTime dist cfg props prev p idx) mode, by simp⟩
      · have hj' : j' < rest.length := by
          simpa using hj
        obtain ⟨t, ht⟩ := ih (some (p, stepAssignedTime dist cfg props prev p idx)) (idx + 1)
          j' hj'
        exact ⟨t, by simpa using ht⟩

/-- C10: the cascade returns the place list it was given, of the same
length, where each entry differs from the input entry only in `visit_time`
(written) and the removed `section` / `section_hint` keys — on normally
timed and sentinel-marked places alike; all other fields (name, id,
coordinates, sequence, description, address, url) are unchanged. -/
theorem cascade_writes_only_visit_time_fields
    (dist : DistKmFn) (places : List CoursePlace) (day_number : Option ℤ)
    (config : VisitTimePolicyConfig) (proposals : ℤ → Option String)
    (output_mode : VisitTimeOutputMode) :
    (apply_visit_time_policy dist places day_number config proposals output_mode).1.length
      = places.length ∧
    ∀ j (hj : j < places.length)
      (hj2 : j <
        (apply_visit_time_policy dist places day_number config proposals output_mode).1.length),
      ∃ t, (apply_visit_time_policy dist places day_number config proposals output_mode).1[j] =
        { places[j] with visit_time := some t, sectionKey := none, section_hint := none } := by
  unfold apply_visit_time_policy
  by_cases hp : places.isEmpty
  · have hnil : places = [] := List.isEmpty_iff.mp hp
    subst hnil
    simp
  · rw [if_neg hp]
    dsimp only
    refine ⟨(visitTimeLoop_shape dist config (dayLabelOf day_number) proposals output_mode
        places none 0).1, ?_⟩
    intro j hj hj2
    obtain ⟨t, ht⟩ := visitTimeLoop_frame dist config (dayLabelOf day_number) proposals
      output_mode places none 0 j hj
    refine ⟨t, ?_⟩
    rw [List.getElem?_eq_getElem hj2] at ht
    exact Option.some_inj.mp ht

/-- The policy configuration fixture (the module defaults of
`visit_time_policy.py`: start 09:00, stay 90, factor 15, base 10, late hour
23, walk threshold 30). -/
def policyCfg : VisitTimePolicyConfig := ⟨540, 90, 15, 10, 23, 30⟩

/-- A distance function fixture (never consulted for coordinate-free
places). -/
def zeroDist : DistKmFn := fun _ _ _ _ => 0

/-- Witness for C10 on a one-place day: the returned entry is the input
place with only the listed fields changed. -/
theorem cascade_writes_only_visit_time_fields_witness :
    0 < [mkPlace "a" 1].length ∧
    ∃ t, (apply_visit_time_policy zeroDist [mkPlace "a" 1] (some 1) policyCfg
        (fun _ => none) VisitTimeOutputMode.HHMM).1.get ⟨0, by decide⟩ =
      { mkPlace "a" 1 with visit_time := some t, sectionKey := none, section_hint := none } :=
  ⟨by decide,
    (cascade_writes_only_visit_time_fields zeroDist [mkPlace "a" 1] (some 1) policyCfg
      (fun _ => none) VisitTimeOutputMode.HHMM).2 0 (by decide) (by decide)⟩

/-- The first trace entry of a non-empty run is the step-assigned time of the
first place, and it is under 1440 (otherwise the loop would have stopped with
an empty trace). -/
theorem visitTimeLoop_trace_head (dist : DistKmFn) (cfg : VisitTimePolicyConfig)
    (label : String) (props : ℤ → Option String) (mode : VisitTimeOutputMode)
    (p : CoursePlace) (rest : List CoursePlace) (prev : Option (CoursePlace × ℤ)) (idx : ℕ)
    (h : 0 < (visitTimeLoop dist cfg label props mode (p :: rest) prev idx).2.2.length) :
    (visitTimeLoop dist cfg label props mode (p :: rest) prev idx).2.2[0]? =
      some (stepAssignedTime dist cfg props prev p idx) ∧
    stepAssignedTime dist cfg props prev p idx < 1440 := by
  by_cases hovf : 1440 ≤ stepAssignedTime dist cfg props prev p idx
  · exfalso
    simp only [visitTimeLoop] at h
    rw [if_pos hovf] at h
    simp at h
  · refine ⟨?_, by omega⟩
    simp only [visitTimeLoop]
    rw [if_neg hovf]
    simp

/-- Consecutive trace entries satisfy the assigned-time recurrence: each
later entry is the step-assigned time computed from the previous place and
its assigned minutes. -/
theorem visitTimeLoop_trace_rec (dist : DistKmFn) (cfg : VisitTimePolicyConfig)
    (label : String) (props : ℤ → Option String) (mode : VisitTimeOutputMode) :
    ∀ (places : List CoursePlace) (prev : Option (CoursePlace × ℤ)) (idx : ℕ)
      (i : ℕ) (hi : i + 1 < places.length) (a b : ℤ),
      (visitTimeLoop dist cfg label props mode places prev idx).2.2[i]? = some a →
      (visitTimeLoop dist cfg label props mode places prev idx).2.2[i + 1]? = some b →
      b = stepAssignedTime dist cfg props (some (places[i], a)) places[i + 1] (idx + i + 1) := by
  intro places
  induction places with
  | nil =>
    intro prev idx i hi
    exact absurd hi (by simp)
  | cons p rest ih =>
    intro prev idx i hi a b ha hb
    by_cases hovf : 1440 ≤ stepAssignedTime dist cfg props prev p idx
    · exfalso
      simp only [visitTimeLoop] at ha
      rw [if_pos hovf] at ha
      simp at ha
    · simp only [visitTimeLoop] at ha hb
      rw [if_neg hovf] at ha hb
      rcases i with _ | k
      · simp only [List.getElem?_cons_zero, Option.some_inj] at ha
        simp only [List.getElem?_cons_succ] at hb
        rcases rest with _ | ⟨q, rest2⟩
        · exact absurd hi (by simp)
        · have hlen : 0 < (visitTimeLoop dist cfg label props mode (q :: rest2)
              (some (p, stepAssignedTime dist cfg props prev p idx)) (idx + 1)).2.2.length := by
            obtain ⟨hl, -⟩ := List.getElem?_eq_some.mp hb
            omega
          have hhd := visitTimeLoop_trace_head dist cfg label props mode q rest2
            (some (p, stepAssignedTime dist cfg props prev p idx)) (idx + 1) hlen
          rw [hhd.1] at hb
          simp only [Option.some_inj] at hb
          rw [← hb, ← ha]
          rfl
      · simp only [List.getElem?_cons_succ] at ha hb
        have hi' : k + 1 < rest.length := by
          simpa using Nat.lt_of_succ_lt_succ hi
        have := ih (some (p, stepAssignedTime dist cfg props prev p idx)) (idx + 1) k hi'
          a b ha hb
        rw [this]
        have harith : idx + 1 + k + 1 = idx + (k + 1) + 1 := by omega
        rw [harith]
        simp

/-- C3 amended: in the schedule cascade, each later assigned time is the
30-minute ceiling of the anchored base time, where the base time is the
previous place's assigned time plus the stay duration plus the transit
minutes; the transit minutes are `int(great_circle_km × factor + base)` —
truncation toward zero, not `round` — when all four coordinates are present,
and zero when any coordinate is absent. -/
theorem cascade_base_time_recurrence
    (dist : DistKmFn) (places : List CoursePlace) (day_number : Option ℤ)
    (config : VisitTimePolicyConfig) (proposals : ℤ → Option String)
    (output_mode : VisitTimeOutputMode) (i : ℕ)
    (hi : i + 1 < places.length) (a b : ℤ)
    (ha : (visitTimeLoop dist config (dayLabelOf day_number) proposals output_mode
      places none 0).2.2[i]? = some a)
    (hb : (visitTimeLoop dist config (dayLabelOf day_number) proposals output_mode
      places none 0).2.2[i + 1]? = some b) :
    b = _ceil_minutes_to_step
        (applyAnchor (a + config.stay_minutes +
            transitBetween dist config places[i] places[i + 1])
          (_resolve_anchor_minutes places[i + 1]
            (proposalMinutesFor proposals places[i + 1] (i + 1))))
        _VISIT_TIME_MINUTE_STEP ∧
    (∀ lat1 lon1 lat2 lon2,
      places[i].latitude = some lat1 → places[i].longitude = some lon1 →
      places[i + 1].latitude = some lat2 → places[i + 1].longitude = some lon2 →
      transitBetween dist config places[i] places[i + 1] =
        pyInt (dist lat1 lon1 lat2 lon2 * config.transit_factor +
          config.transit_base_minutes)) ∧
    ((places[i].latitude = none ∨ places[i].longitude = none ∨
        places[i + 1].latitude = none ∨ places[i + 1].longitude = none) →
      transitBetween dist config places[i] places[i + 1] = 0) := by
  refine ⟨?_, ?_, ?_⟩
  · have h := visitTimeLoop_trace_rec dist config (dayLabelOf day_number) proposals
      output_mode places none 0 i hi a b ha hb
    rw [h]
    have : (0 : ℕ) + i + 1 = i + 1 := by omega
    rw [this]
    rfl
  · intro lat1 lon1 lat2 lon2 h1 h2 h3 h4
    unfold transitBetween
    rw [h1, h2, h3, h4]
    rfl
  · intro hmiss
    unfold transitBetween
    rcases hmiss with h | h | h | h <;> rw [h] <;>
      rcases hx1 : places[i].latitude <;> rcases hx2 : places[i].longitude <;>
      rcases hx3 : places[i + 1].latitude <;> rcases hx4 : places[i + 1].longitude <;>
      simp_all

/-- Witness for C3 on a two-place coordinate-free day with the default
policy: the second assigned time 660 satisfies the recurrence from the first
assigned time 540 (base 540 + 90 + 0 = 630, already on the 30-minute
grid). -/
theorem cascade_base_time_recurrence_witness :
    (visitTimeLoop zeroDist policyCfg (dayLabelOf (some 1)) (fun _ => none)
        VisitTimeOutputMode.HHMM [mkPlace "a" 1, mkPlace "b" 2] none 0).2.2[1]? =
      some 630 ∧
    (630 : ℤ) = _ceil_minutes_to_step
        (applyAnchor (540 + policyCfg.stay_minutes +
            transitBetween zeroDist policyCfg (mkPlace "a" 1) (mkPlace "b" 2))
          (_resolve_anchor_minutes (mkPlace "b" 2)
            (proposalMinutesFor (fun _ => none) (mkPlace "b" 2) 1)))
        _VISIT_TIME_MINUTE_STEP := by
  have h := cascade_base_time_recurrence zeroDist [mkPlace "a" 1, mkPlace "b" 2] (some 1)
    policyCfg (fun _ => none) VisitTimeOutputMode.HHMM 0 (by decide) 540 630
    (by decide) (by decide)
  exact ⟨by decide, h.1⟩

/-- A walk-warning list never contains the overage warning. -/
theorem count_overage_transitWarnsFor (dist : DistKmFn) (cfg : VisitTimePolicyConfig)
    (l l2 : String) (prev : Option (CoursePlace × ℤ)) (place : CoursePlace) :
    (transitWarnsFor dist cfg l prev place).count (overageWarning l2) = 0 := by
  rcases prev with _ | ⟨pp, pa⟩
  · rfl
  · unfold transitWarnsFor
    dsimp only
    split
    · simp only [List.count_eq_zero, List.mem_singleton]
      exact Ne.symm (walkWarning_ne_overageWarning l l2 pp place _)
    · rfl

/-- A late-warning list never contains the overage warning. -/
theorem count_overage_lateWarnsFor (cfg : VisitTimePolicyConfig) (l l2 : String)
    (place : CoursePlace) (a : ℤ) :
    (lateWarnsFor cfg l place a).count (overageWarning l2) = 0 := by
  unfold lateWarnsFor
  split
  · simp only [List.count_eq_zero, List.mem_singleton]
    exact Ne.symm (lateWarning_ne_overageWarning l l2 place a)
  · rfl

/-- Overflow behavior of the cascade loop: when the trace is shorter than the
place list the loop stopped at an overflow.  Then (a) every place from the
stop position on carries the "schedule exceeded" sentinel, (b) every place
before it keeps its normal formatted time, under 1440, (c) exactly one
overage warning is emitted, and (d)/(e) the step-assigned time computed at
the stop position reached 1440. -/
theorem visitTimeLoop_overflow (dist : DistKmFn) (cfg : VisitTimePolicyConfig)
    (label : String) (props : ℤ → Option String) (mode : VisitTimeOutputMode) :
    ∀ (places : List CoursePlace) (prev : Option (CoursePlace × ℤ)) (idx : ℕ),
      (visitTimeLoop dist cfg label props mode places prev idx).2.2.length < places.length →
      (∀ j (hj : j < places.length),
        (visitTimeLoop dist cfg label props mode places prev idx).2.2.length ≤ j →
        (visitTimeLoop dist cfg label props mode places prev idx).1[j]? =
          some (markExceeded places[j])) ∧
      (∀ j (hj : j < places.length) (a : ℤ),
        (visitTimeLoop dist cfg label props mode places prev idx).2.2[j]? = some a →
        (visitTimeLoop dist cfg label props mode places prev idx).1[j]? =
          some { places[j] with
                 visit_time := some (_format_visit_time a mode), sectionKey := none,
                 section_hint := none } ∧ a < 1440) ∧
      ((visitTimeLoop dist cfg label props mode places prev idx).2.1.count
        (overageWarning label) = 1) ∧
      ((visitTimeLoop dist cfg label props mode places prev idx).2.2.length = 0 →
        ∀ (h0 : 0 < places.length),
          1440 ≤ stepAssignedTime dist cfg props prev places[0] idx) ∧
      (∀ k (a : ℤ)
        (hk : (visitTimeLoop dist cfg label props mode places prev idx).2.2.length = k + 1)
        (hkp : k + 1 < places.length)
        (ha : (visitTimeLoop dist cfg label props mode places prev idx).2.2[k]? = some a),
        1440 ≤ stepAssignedTime dist cfg props (some (places[k], a)) places[k + 1]
          (idx + k + 1)) := by
  intro places
  induction places with
  | nil =>
    intro prev idx h
    exact absurd h (by simp)
  | cons p rest ih =>
    intro prev idx h
    by_cases hovf : 1440 ≤ stepAssignedTime dist cfg props prev p idx
    · refine ⟨?_, ?_, ?_, ?_, ?_⟩
      · intro j hj hjge
        simp only [visitTimeLoop]
        rw [if_pos hovf]
        rw [List.getElem?_map, List.getElem?_eq_getElem hj]
        rfl
      · intro j hj a ha
        exfalso
        simp only [visitTimeLoop] at ha
        rw [if_pos hovf] at ha
        simp at ha
      · simp only [visitTimeLoop]
        rw [if_pos hovf]
        simp only [List.count_append, count_overage_transitWarnsFor]
        simp [List.count_singleton]
      · intro hlen0 h0
        simpa using hovf
      · intro k a hk
        exfalso
        simp only [visitTimeLoop] at hk
        rw [if_pos hovf] at hk
        simp at hk
    · have h2 : (visitTimeLoop dist cfg label props mode rest
          (some (p, stepAssignedTime dist cfg props prev p idx)) (idx + 1)).2.2.length <
          rest.length := by
        simp only [visitTimeLoop] at h
        rw [if_neg hovf] at h
        simpa using h
      have IH := ih (some (p, stepAssignedTime dist cfg props prev p idx)) (idx + 1) h2
      refine ⟨?_, ?_, ?_, ?_, ?_⟩
      · intro j hj hjge
        simp only [visitTimeLoop] at hjge ⊢
        rw [if_neg hovf] at hjge ⊢
        rcases j with _ | j'
        · exact absurd hjge (by simp)
        · have hj' : j' < rest.length := by simpa using hj
          have hge' := Nat.le_of_succ_le_succ (by simpa using hjge)
          simpa using IH.1 j' hj' hge'
      · intro j hj a ha
        simp only [visitTimeLoop] at ha ⊢
        rw [if_neg hovf] at ha ⊢
        rcases j with _ | j'
        · simp only [List.getElem?_cons_zero, Option.some_inj] at ha
          subst ha
          exact ⟨by simp, by omega⟩
        · have hj' : j' < rest.length := by simpa using hj
          simp only [List.getElem?_cons_succ] at ha
          have := IH.2.1 j' hj' a ha
          exact ⟨by simpa using this.1, this.2⟩
      · simp only [visitTimeLoop]
        rw [if_neg hovf]
        simp only [List.count_append, count_overage_transitWarnsFor,
          count_overage_lateWarnsFor, IH.2.2.1]
      · intro hlen0
        exfalso
        simp only [visitTimeLoop] at hlen0
        rw [if_neg hovf] at hlen0
        simp at hlen0
      · intro k a hk hkp ha
        simp only [visitTimeLoop] at hk ha
        rw [if_neg hovf] at hk ha
        rcases k with _ | k'
        · simp only [List.getElem?_cons_zero, Option.some_inj] at ha
          have hlen : (visitTimeLoop dist cfg label props mode rest
              (some (p, stepAssignedTime dist cfg props prev p idx)) (idx + 1)).2.2.length
              = 0 := by simpa using hk
          have h0 : 0 < rest.length := by simpa using Nat.lt_of_succ_lt_succ hkp
          have := IH.2.2.2.1 hlen h0
          rw [← ha]
          simpa using this
        · simp only [List.getElem?_cons_succ] at ha
          have hk' : (visitTimeLoop dist cfg label props mode rest
              (some (p, stepAssignedTime dist cfg props prev p idx)) (idx + 1)).2.2.length
              = k' + 1 := by simpa using hk
          have hkp' : k' + 1 < rest.length := by simpa using Nat.lt_of_succ_lt_succ hkp
          have := IH.2.2.2.2 k' a hk' hkp' ha
          have harith : idx + 1 + k' + 1 = idx + (k' + 1) + 1 := by omega
          rw [harith] at this
          simpa using this

/-- C4: when the cascade's assigned-minutes trace stops short of the place
list (the loop hit an assigned time at or past 1440), the cascade output is
the loop output where every place from the stop position on carries the
"schedule exceeded" sentinel, every earlier place keeps its normal formatted
time (all under 1440 — no further times are computed), exactly one overage
warning is emitted for the day, and the step-assigned time computed at the
stop position reached 1440. -/
theorem cascade_overflow_behavior
    (dist : DistKmFn) (places : List CoursePlace) (day_number : Option ℤ)
    (config : VisitTimePolicyConfig) (proposals : ℤ → Option String)
    (output_mode : VisitTimeOutputMode)
    (h : (visitTimeLoop dist config (dayLabelOf day_number) proposals output_mode
      places none 0).2.2.length < places.length) :
    apply_visit_time_policy dist places day_number config proposals output_mode =
      ((visitTimeLoop dist config (dayLabelOf day_number) proposals output_mode
          places none 0).1,
       (visitTimeLoop dist config (dayLabelOf day_number) proposals output_mode
          places none 0).2.1) ∧
    (∀ j (hj : j < places.length),
      (visitTimeLoop dist config (dayLabelOf day_number) proposals output_mode
        places none 0).2.2.length ≤ j →
      (visitTimeLoop dist config (dayLabelOf day_number) proposals output_mode
        places none 0).1[j]? = some (markExceeded places[j])) ∧
    (∀ j (hj : j < places.length) (a : ℤ),
      (visitTimeLoop dist config (dayLabelOf day_number) proposals output_mode
        places none 0).2.2[j]? = some a →
      (visitTimeLoop dist config (dayLabelOf day_number) proposals output_mode
          places none 0).1[j]? =
        some { places[j] with
               visit_time := some (_format_visit_time a output_mode), sectionKey := none,
               section_hint := none } ∧ a < 1440) ∧
    ((visitTimeLoop dist config (dayLabelOf day_number) proposals output_mode
        places none 0).2.1.count (overageWarning (dayLabelOf day_number)) = 1) ∧
    ((visitTimeLoop dist config (dayLabelOf day_number) proposals output_mode
        places none 0).2.2.length = 0 →
      ∀ (h0 : 0 < places.length),
        1440 ≤ stepAssignedTime dist config proposals none places[0] 0) ∧
    (∀ k (a : ℤ)
      (hk : (visitTimeLoop dist config (dayLabelOf day_number) proposals output_mode
        places none 0).2.2.length = k + 1)
      (hkp : k + 1 < places.length)
      (ha : (visitTimeLoop dist config (dayLabelOf day_number) proposals output_mode
        places none 0).2.2[k]? = some a),
      1440 ≤ stepAssignedTime dist config proposals (some (places[k], a)) places[k + 1]
        (k + 1)) := by
  have hmain := visitTimeLoop_overflow dist config (dayLabelOf day_number) proposals
    output_mode places none 0 h
  have hne : ¬ places.isEmpty = true := by
    rcases places with _ | ⟨q, qs⟩
    · simp at h
    · simp
  refine ⟨?_, hmain.1, hmain.2.1, hmain.2.2.1, hmain.2.2.2.1, ?_⟩
  · unfold apply_visit_time_policy
    rw [if_neg hne]
  · intro k a hk hkp ha
    have := hmain.2.2.2.2 k a hk hkp ha
    simpa using this

/-- The second place of the C4 witness day: its embedded 23:45 anchor pushes
the ceiling-rounded assigned time to 1440. -/
def latePlace : CoursePlace := { mkPlace "지연" 2 with visit_time := some "23:45" }

/-- Witness for C4 on the two-place day [09:00 place, 23:45-anchored place]:
the trace stops after the first place, exactly one overage warning is
emitted, and the second place carries the sentinel. -/
theorem cascade_overflow_behavior_witness :
    (visitTimeLoop zeroDist policyCfg (dayLabelOf (some 1)) (fun _ => none)
        VisitTimeOutputMode.HHMM [mkPlace "a" 1, latePlace] none 0).2.2.length < 2 ∧
    (apply_visit_time_policy zeroDist [mkPlace "a" 1, latePlace] (some 1) policyCfg
        (fun _ => none) VisitTimeOutputMode.HHMM).2.count
      (overageWarning (dayLabelOf (some 1))) = 1 ∧
    (apply_visit_time_policy zeroDist [mkPlace "a" 1, latePlace] (some 1) policyCfg
        (fun _ => none) VisitTimeOutputMode.HHMM).1[1]? = some (markExceeded latePlace) := by
  have h := cascade_overflow_behavior zeroDist [mkPlace "a" 1, latePlace] (some 1) policyCfg
    (fun _ => none) VisitTimeOutputMode.HHMM (by decide)
  refine ⟨by decide, ?_, ?_⟩
  · rw [h.1]
    exact h.2.2.2.1
  · rw [h.1]
    simpa using h.2.1 1 (by decide) (by decide)

end Mohaeng
